import Mathlib

/-!
Verification development for the turfops agronomic recommendation engine.

The Rust source is shallowly embedded: `f64` values are modelled as exact
rationals (`ℚ`), `DateTime<Utc>` instants as rational seconds since the Unix
epoch, and `NaiveDate` values as integer day numbers since 1970-01-01
(converted to and from calendar year/month/day with the standard civil
calendar algorithms).  The implicit wall-clock dependency of the source
(`Utc::now()` / `Local::now()`) is threaded through as an explicit `Clock`
argument.  Fallible code returns `Option`.
-/

namespace Turfops

/-- Civil-calendar conversion: day number since 1970-01-01 of a calendar date
(Hinnant days-from-civil algorithm, using floor division).  Embeds chrono's
`NaiveDate` internals as used through `from_ymd_opt` and date arithmetic. -/
def daysFromCivil (y m d : ℤ) : ℤ :=
  let y2 : ℤ := if m ≤ 2 then y - 1 else y
  let era : ℤ := Int.fdiv y2 400
  let yoe : ℤ := y2 - era * 400
  let mp : ℤ := Int.fmod (m + 9) 12
  let doy : ℤ := Int.fdiv (153 * mp + 2) 5 + d - 1
  let doe : ℤ := yoe * 365 + Int.fdiv yoe 4 - Int.fdiv yoe 100 + doy
  era * 146097 + doe - 719468

/-- Inverse civil-calendar conversion: calendar (year, month, day) of a day
number since 1970-01-01. -/
def civilFromDays (z0 : ℤ) : ℤ × ℤ × ℤ :=
  let z : ℤ := z0 + 719468
  let era : ℤ := Int.fdiv z 146097
  let doe : ℤ := z - era * 146097
  let yoe : ℤ :=
    Int.fdiv (doe - Int.fdiv doe 1460 + Int.fdiv doe 36524 - Int.fdiv doe 146096) 365
  let y : ℤ := yoe + era * 400
  let doy : ℤ := doe - (365 * yoe + Int.fdiv yoe 4 - Int.fdiv yoe 100)
  let mp : ℤ := Int.fdiv (5 * doy + 2) 153
  let d : ℤ := doy - Int.fdiv (153 * mp + 2) 5 + 1
  let m : ℤ := mp + (if mp < 10 then 3 else -9)
  (if m ≤ 2 then y + 1 else y, m, d)

/-- `NaiveDate::year()` on a day number. -/
def yearOfDays (z : ℤ) : ℤ := (civilFromDays z).1

/-- `NaiveDate::month()` on a day number. -/
def monthOfDays (z : ℤ) : ℤ := (civilFromDays z).2.1

/-- `NaiveDate::day()` on a day number. -/
def dayOfDays (z : ℤ) : ℤ := (civilFromDays z).2.2

/-- Whether `y` is a leap year (Gregorian). -/
def isLeapYear (y : ℤ) : Bool :=
  (Int.fmod y 4 == 0 && Int.fmod y 100 != 0) || Int.fmod y 400 == 0

/-- Number of days in month `m` of year `y`. -/
def daysInMonth (y m : ℤ) : ℤ :=
  if m = 2 then (if isLeapYear y then 29 else 28)
  else if m = 4 ∨ m = 6 ∨ m = 9 ∨ m = 11 then 30
  else 31

/-- `NaiveDate::from_ymd_opt`: `some` day number for a valid calendar date,
`none` otherwise. -/
def fromYmdOpt (y m d : ℤ) : Option ℤ :=
  if 1 ≤ m ∧ m ≤ 12 ∧ 1 ≤ d ∧ d ≤ daysInMonth y m then some (daysFromCivil y m d)
  else none

/-- `DateTime<Utc>::date_naive()`: UTC calendar day number of an instant given
as rational seconds since the epoch. -/
def dateNaive (t : ℚ) : ℤ := ⌊t / 86400⌋

/-- The wall clock, made explicit: the source reads `Utc::now()` (an instant,
here rational seconds since the epoch) and `Local::now().date_naive()` /
`.month()` / `.year()` (a local calendar day, here a day number). -/
structure Clock where
  utcNow : ℚ
  localToday : ℤ
deriving DecidableEq

/-- `Local::now().year()`. -/
def Clock.localYear (c : Clock) : ℤ := yearOfDays c.localToday

/-- `Local::now().month()`. -/
def Clock.localMonth (c : Clock) : ℤ := monthOfDays c.localToday

/-! ### Numeric and date formatting helpers (Rust `format!`) -/

/-- Pad a digit string on the left with zeros to length `p`. -/
def padLeftZeros (s : String) (p : ℕ) : String :=
  String.mk (List.replicate (p - s.length) '0') ++ s

/-- Rust `format!` with fixed precision (`{:.0}` / `{:.1}` / `{:.2}`) on an
`f64`, modelled on `ℚ`: round `q` to `p` decimal places (half away from the
floor, i.e. `⌊q·10^p + 1/2⌋`, computed on the canonical numerator and
denominator with integer arithmetic) and print.  All values the claims
format are exact multiples of `10^-p`, where every correct rounding
agrees. -/
def fmtFixed (q : ℚ) (p : ℕ) : String :=
  let n : ℤ := Int.fdiv (2 * q.num * 10 ^ p + (q.den : ℤ)) (2 * (q.den : ℤ))
  let sign : String := if n < 0 then "-" else ""
  let a : ℕ := n.natAbs
  let ip : ℕ := a / 10 ^ p
  let fp : ℕ := a % 10 ^ p
  if p = 0 then sign ++ toString ip
  else sign ++ toString ip ++ "." ++ padLeftZeros (toString fp) p

/-- Full month name (chrono `%B`). -/
def monthNameFull (m : ℤ) : String :=
  if m = 1 then "January" else if m = 2 then "February" else if m = 3 then "March"
  else if m = 4 then "April" else if m = 5 then "May" else if m = 6 then "June"
  else if m = 7 then "July" else if m = 8 then "August" else if m = 9 then "September"
  else if m = 10 then "October" else if m = 11 then "November" else "December"

/-- Abbreviated month name (chrono `%b`). -/
def monthNameAbbr (m : ℤ) : String :=
  if m = 1 then "Jan" else if m = 2 then "Feb" else if m = 3 then "Mar"
  else if m = 4 then "Apr" else if m = 5 then "May" else if m = 6 then "Jun"
  else if m = 7 then "Jul" else if m = 8 then "Aug" else if m = 9 then "Sep"
  else if m = 10 then "Oct" else if m = 11 then "Nov" else "Dec"

/-- Zero-padded two-digit day of month (chrono `%d`). -/
def pad2 (n : ℤ) : String := if n < 10 then "0" ++ toString n else toString n

/-- chrono `date.format("%B %d")`. -/
def formatBigBd (z : ℤ) : String := monthNameFull (monthOfDays z) ++ " " ++ pad2 (dayOfDays z)

/-- chrono `date.format("%b %d")`. -/
def formatAbbrBd (z : ℤ) : String := monthNameAbbr (monthOfDays z) ++ " " ++ pad2 (dayOfDays z)

/-- English weekday name of a day number (1970-01-01 was a Thursday);
embeds the `match date.weekday()` table of the application-window rule. -/
def weekdayName (z : ℤ) : String :=
  let w : ℤ := Int.fmod (z + 4) 7
  if w = 0 then "Sunday" else if w = 1 then "Monday" else if w = 2 then "Tuesday"
  else if w = 3 then "Wednesday" else if w = 4 then "Thursday"
  else if w = 5 then "Friday" else "Saturday"

/-! ### Forecast model (`src/models/forecast.rs`) -/

/-- `WeatherCondition` categories from OpenWeatherMap. -/
inductive WeatherCondition where
  | Clear | Clouds | Rain | Drizzle | Thunderstorm | Snow | Mist | Fog | Other
deriving DecidableEq, Fintype, Repr

instance : Inhabited WeatherCondition := ⟨WeatherCondition.Clear⟩

/-- A single 3-hour forecast point (`ForecastPoint`). -/
structure ForecastPoint where
  timestamp : ℚ
  temp_f : ℚ
  feels_like_f : ℚ
  humidity_percent : ℚ
  precipitation_mm : ℚ
  precipitation_prob : ℚ
  wind_speed_mph : ℚ
  wind_gust_mph : Option ℚ
  cloud_cover_percent : ℚ
  weather_condition : WeatherCondition
deriving DecidableEq

/-- Aggregated daily forecast (`DailyForecast`). -/
structure DailyForecast where
  date : ℤ
  high_temp_f : ℚ
  low_temp_f : ℚ
  avg_humidity : ℚ
  total_precipitation_mm : ℚ
  max_precipitation_prob : ℚ
  dominant_condition : WeatherCondition
  avg_wind_speed_mph : ℚ
  max_wind_gust_mph : Option ℚ
deriving DecidableEq

/-- `ForecastLocation`. -/
structure ForecastLocation where
  city : String
  country : String
  latitude : ℚ
  longitude : ℚ
deriving DecidableEq

/-- `WeatherForecast`. -/
structure WeatherForecast where
  fetched_at : ℚ
  location : ForecastLocation
  hourly : List ForecastPoint
  daily_summary : List DailyForecast
deriving DecidableEq

/-- `WeatherForecast::next_hours`: filter the hourly series by
`p.timestamp <= Utc::now() + Duration::hours(hours)`. -/
def WeatherForecast.next_hours (f : WeatherForecast) (utcNow : ℚ) (hours : ℕ) :
    List ForecastPoint :=
  let cutoff : ℚ := utcNow + (hours : ℚ) * 3600
  f.hourly.filter (fun p => p.timestamp ≤ cutoff)

/-- `WeatherForecast::next_days`: filter the daily series by
`d.date <= Utc::now().date_naive() + Duration::days(days)`. -/
def WeatherForecast.next_days (f : WeatherForecast) (utcNow : ℚ) (days : ℕ) :
    List DailyForecast :=
  let today : ℤ := dateNaive utcNow
  let cutoff : ℤ := today + (days : ℤ)
  f.daily_summary.filter (fun d => d.date ≤ cutoff)

/-- `RainForecast`. -/
structure RainForecast where
  expected_mm : ℚ
  max_probability : ℚ
  first_expected : Option ℚ
deriving DecidableEq

/-- The accumulation loop of `rain_expected_within`: one pass over the window
carrying (total precipitation, maximum probability, first rain time). -/
def rainScan : List ForecastPoint → ℚ → ℚ → Option ℚ → ℚ × ℚ × Option ℚ
  | [], total, maxProb, first => (total, maxProb, first)
  | p :: ps, total, maxProb, first =>
      rainScan ps (total + p.precipitation_mm)
        (if p.precipitation_prob > maxProb then p.precipitation_prob else maxProb)
        (if first.isNone ∧ (p.precipitation_mm > 1/10 ∨ p.precipitation_prob > 1/2)
          then some p.timestamp else first)

/-- `WeatherForecast::rain_expected_within(hours, threshold_mm)`. -/
def WeatherForecast.rain_expected_within (f : WeatherForecast) (utcNow : ℚ)
    (hours : ℕ) (threshold_mm : ℚ) : Option RainForecast :=
  let points := f.next_hours utcNow hours
  let acc := rainScan points 0 0 none
  if acc.1 ≥ threshold_mm ∨ acc.2.1 ≥ 1/2 then
    some ⟨acc.1, acc.2.1, acc.2.2⟩
  else
    none

/-- `WeatherForecast::max_temp_next_days`. -/
def WeatherForecast.max_temp_next_days (f : WeatherForecast) (utcNow : ℚ)
    (days : ℕ) : Option ℚ :=
  ((f.next_days utcNow days).map (fun d => d.high_temp_f)).max?

/-- `WeatherForecast::consecutive_high_humidity_days`: prefix-run count of
leading days of the daily series meeting the humidity threshold. -/
def WeatherForecast.consecutive_high_humidity_days (f : WeatherForecast)
    (threshold : ℚ) : ℕ :=
  (f.daily_summary.takeWhile (fun d => d.avg_humidity ≥ threshold)).length

/-! ### Environmental model (`src/models/environmental.rs`) -/

/-- `DataSource`. -/
inductive DataSource where
  | SoilData | HomeAssistant | Cached | Manual
deriving DecidableEq

/-- `DataSource::as_str`. -/
def DataSource.as_str : DataSource → String
  | .SoilData => "NOAA USCRN"
  | .HomeAssistant => "Patio Sensor"
  | .Cached => "Cached"
  | .Manual => "Manual"

/-- `EnvironmentalReading`: a point-in-time measurement with independently
optional channels. -/
structure EnvironmentalReading where
  timestamp : ℚ
  source : DataSource
  soil_temp_5_f : Option ℚ := none
  soil_temp_10_f : Option ℚ := none
  soil_temp_20_f : Option ℚ := none
  soil_temp_50_f : Option ℚ := none
  soil_temp_100_f : Option ℚ := none
  soil_moisture_5 : Option ℚ := none
  soil_moisture_10 : Option ℚ := none
  soil_moisture_20 : Option ℚ := none
  soil_moisture_50 : Option ℚ := none
  soil_moisture_100 : Option ℚ := none
  ambient_temp_f : Option ℚ := none
  humidity_percent : Option ℚ := none
  precipitation_mm : Option ℚ := none
deriving DecidableEq

/-- `EnvironmentalReading::primary_soil_moisture`: 10 cm, falling back to
5 cm then 20 cm. -/
def EnvironmentalReading.primary_soil_moisture (r : EnvironmentalReading) : Option ℚ :=
  match r.soil_moisture_10 with
  | some v => some v
  | none =>
    match r.soil_moisture_5 with
    | some v => some v
    | none => r.soil_moisture_20

/-- `Trend` of the soil-temperature rolling average. -/
inductive Trend where
  | Rising | Falling | Stable | Unknown
deriving DecidableEq

/-- `Trend::as_str`. -/
def Trend.as_str : Trend → String
  | .Rising => "↑ Rising"
  | .Falling => "↓ Falling"
  | .Stable => "→ Stable"
  | .Unknown => "? Unknown"

/-- `EnvironmentalSummary` (the `last_updated` timestamp is an instant in
rational seconds; `soil_temp_trend` defaults to `Stable` as in the Rust
`#[default]`). -/
structure EnvironmentalSummary where
  current : Option EnvironmentalReading := none
  soil_temp_7day_avg_f : Option ℚ := none
  ambient_temp_7day_avg_f : Option ℚ := none
  humidity_7day_avg : Option ℚ := none
  precipitation_7day_total_mm : Option ℚ := none
  soil_temp_trend : Trend := Trend.Stable
  last_updated : Option ℚ := none
  forecast : Option WeatherForecast := none
deriving DecidableEq

/-- `EnvironmentalSummary::default()`: every optional field absent, trend at
its default `Stable`. -/
def emptySummary : EnvironmentalSummary := {}

/-- `SoilDataClient::calculate_trend` (`src/datasources/soildata.rs`): the
readings arrive newest-first (`ORDER BY utc_datetime DESC`), so the first 24
are the recent window and the next 24 the previous window,
each reduced to its present 10 cm soil temperatures. -/
def calculate_trend (readings : List EnvironmentalReading) : Trend :=
  if readings.length < 48 then Trend.Unknown
  else
    let recent := (readings.take 24).filterMap (fun r => r.soil_temp_10_f)
    let previous := ((readings.drop 24).take 24).filterMap (fun r => r.soil_temp_10_f)
    if recent.isEmpty ∨ previous.isEmpty then Trend.Unknown
    else
      let recent_avg := recent.sum / (recent.length : ℚ)
      let previous_avg := previous.sum / (previous.length : ℚ)
      let diff := recent_avg - previous_avg
      if diff > 2 then Trend.Rising
      else if diff < -2 then Trend.Falling
      else Trend.Stable

/-! ### Lawn profile and application history (`src/models/lawn_profile.rs`,
`src/models/application.rs`) -/

/-- `GrassType`. -/
inductive GrassType where
  | KentuckyBluegrass | TallFescue | PerennialRyegrass | FineFescue
  | Bermuda | Zoysia | StAugustine | Mixed
deriving DecidableEq

/-- `GrassType::is_cool_season`. -/
def GrassType.is_cool_season : GrassType → Bool
  | .KentuckyBluegrass | .TallFescue | .PerennialRyegrass | .FineFescue => true
  | _ => false

/-- `SoilType`. -/
inductive SoilType where
  | Clay | Loam | Sandy | SiltLoam | ClayLoam | SandyLoam
deriving DecidableEq

/-- `IrrigationType`. -/
inductive IrrigationType where
  | InGround | Hose | NoIrrigation
deriving DecidableEq

/-- `LawnProfile` (timestamps as rational seconds). -/
structure LawnProfile where
  id : Option ℤ := none
  name : String
  grass_type : GrassType
  usda_zone : String
  soil_type : Option SoilType := none
  lawn_size_sqft : Option ℚ := none
  irrigation_type : Option IrrigationType := none
  created_at : ℚ := 0
  updated_at : ℚ := 0
deriving DecidableEq

/-- `ApplicationType`: the closed set of lawn-care action kinds. -/
inductive ApplicationType where
  | PreEmergent | PostEmergent | Fertilizer | Fungicide | Insecticide
  | GrubControl | Overseed | Aeration | Dethatching | Lime | Sulfur
  | Wetting | Other
deriving DecidableEq

/-- `WeatherSnapshot` captured at application time. -/
structure WeatherSnapshot where
  soil_temp_10cm_f : Option ℚ := none
  ambient_temp_f : Option ℚ := none
  humidity_percent : Option ℚ := none
  soil_moisture : Option ℚ := none
deriving DecidableEq

/-- `Application`: one historical lawn-care action, with a date-only
`application_date` (a day number). -/
structure Application where
  id : Option ℤ := none
  lawn_profile_id : ℤ
  application_type : ApplicationType
  product_name : Option String := none
  application_date : ℤ
  rate_per_1000sqft : Option ℚ := none
  coverage_sqft : Option ℚ := none
  notes : Option String := none
  weather : Option WeatherSnapshot := none
  created_at : ℚ := 0
deriving DecidableEq

/-! ### Recommendations (`src/models/recommendation.rs`) -/

/-- `RecommendationCategory`. -/
inductive RecommendationCategory where
  | PreEmergent | GrubControl | Fertilizer | Fungicide | Overseeding
  | Irrigation | Mowing | FrostWarning | HeatStress | General
deriving DecidableEq

/-- `Severity`, ordered `Info < Advisory < Warning < Critical`. -/
inductive Severity where
  | Info | Advisory | Warning | Critical
deriving DecidableEq

/-- The derived `Ord` rank of a severity (declaration order). -/
def Severity.rank : Severity → ℕ
  | .Info => 0
  | .Advisory => 1
  | .Warning => 2
  | .Critical => 3

/-- A labeled, attributed `DataPoint` of a recommendation. -/
structure DataPoint where
  label : String
  value : String
  source : String
deriving DecidableEq

/-- `Recommendation` (the `created_at` wall-clock timestamp is omitted from
the embedding: it is set from `Utc::now()` at construction and never read by
the engine or the rules). -/
structure Recommendation where
  id : String
  category : RecommendationCategory
  severity : Severity
  title : String
  description : String
  explanation : String
  data_points : List DataPoint
  suggested_action : Option String
  dismissed : Bool
  addressed : Bool
deriving DecidableEq

/-- `Recommendation::new`. -/
def Recommendation.new (id : String) (category : RecommendationCategory)
    (severity : Severity) (title description : String) : Recommendation :=
  { id := id, category := category, severity := severity, title := title,
    description := description, explanation := "", data_points := [],
    suggested_action := none, dismissed := false, addressed := false }

/-- `Recommendation::with_explanation`. -/
def Recommendation.with_explanation (r : Recommendation) (e : String) : Recommendation :=
  { r with explanation := e }

/-- `Recommendation::with_data_point`. -/
def Recommendation.with_data_point (r : Recommendation) (label value source : String) :
    Recommendation :=
  { r with data_points := r.data_points ++ [⟨label, value, source⟩] }

/-- `Recommendation::with_action`. -/
def Recommendation.with_action (r : Recommendation) (a : String) : Recommendation :=
  { r with suggested_action := some a }

/-- `Recommendation::is_active`. -/
def Recommendation.is_active (r : Recommendation) : Bool :=
  !r.dismissed && !r.addressed

/-! ### Daily aggregation (`src/datasources/openweathermap.rs`)

`aggregate_daily` groups by `HashMap<NaiveDate, _>` and then sorts by date;
the dates are distinct keys, so the sort erases the map's iteration order and
the grouping is modelled directly on sorted distinct dates.  The dominant
weather condition, however, is taken with `max_by_key` over the iteration of
a `HashMap<WeatherCondition, usize>`, whose order is NOT determined by the
input; it is modelled as an explicit `condIter` parameter (one iteration
order per date), constrained in theorems to enumerate exactly the conditions
occurring that day, each once. -/

/-- Rust `Iterator::max_by_key` over a given iteration order: the last
maximal element ("If several elements are equally maximum, the last element
is returned"). -/
def lastMaxByKey {α : Type} (k : α → ℕ) : List α → Option α
  | [] => none
  | x :: xs => some (xs.foldl (fun b c => if k c ≥ k b then c else b) x)

/-- Occurrence count of condition `c` among a day's points (the value stored
in `condition_counts`). -/
def condCount (points : List ForecastPoint) (c : WeatherCondition) : ℕ :=
  (points.filter (fun p => p.weather_condition == c)).length

/-- `OpenWeatherMapClient::aggregate_day`: per-day aggregates over the day's
points (in hourly order), with `condIter` the iteration order of the
condition-frequency map. -/
def aggregate_day (date : ℤ) (points : List ForecastPoint)
    (condIter : List WeatherCondition) : DailyForecast :=
  let high_temp_f := ((points.map (fun p => p.temp_f)).max?).getD 0
  let low_temp_f := ((points.map (fun p => p.temp_f)).min?).getD 0
  let avg_humidity := (points.map (fun p => p.humidity_percent)).sum / (max points.length 1 : ℚ)
  let total_precipitation_mm := (points.map (fun p => p.precipitation_mm)).sum
  let max_precipitation_prob := ((points.map (fun p => p.precipitation_prob)).max?).getD 0
  let dominant_condition := (lastMaxByKey (condCount points) condIter).getD WeatherCondition.Clear
  let avg_wind_speed_mph := (points.map (fun p => p.wind_speed_mph)).sum / (max points.length 1 : ℚ)
  let max_wind_gust_mph := (points.filterMap (fun p => p.wind_gust_mph)).max?
  { date := date, high_temp_f := high_temp_f, low_temp_f := low_temp_f,
    avg_humidity := avg_humidity, total_precipitation_mm := total_precipitation_mm,
    max_precipitation_prob := max_precipitation_prob,
    dominant_condition := dominant_condition,
    avg_wind_speed_mph := avg_wind_speed_mph, max_wind_gust_mph := max_wind_gust_mph }

/-- The day-group of a calendar date: the hourly points falling on it, in
hourly order (the order they are pushed into the grouping map). -/
def dayGroup (hourly : List ForecastPoint) (d : ℤ) : List ForecastPoint :=
  hourly.filter (fun p => dateNaive p.timestamp == d)

/-- `OpenWeatherMapClient::aggregate_daily`: one `DailyForecast` per distinct
UTC date of the hourly series, sorted ascending by date. -/
def aggregate_daily (hourly : List ForecastPoint)
    (condIter : ℤ → List WeatherCondition) : List DailyForecast :=
  let dates := ((hourly.map (fun p => dateNaive p.timestamp)).dedup)
  (List.insertionSort (· ≤ ·) dates).map
    (fun d => aggregate_day d (dayGroup hourly d) (condIter d))

/-! ### Rule set (`src/logic/rules/`) -/

/-- The evaluation signature shared by every rule: a pure function of the
clock (made explicit) and the three borrowed inputs. -/
def RuleFn : Type :=
  Clock → EnvironmentalSummary → LawnProfile → List Application → Option Recommendation

/-- `RainDelayRule::build_recommendation`.  (The rule source constructs the
category `ApplicationTiming`, a variant not present in the models file; the
embedding maps it to the closest declared variant `General` and records the
discrepancy here.) -/
def rainDelayBuild (severity : Severity) (hours : ℕ) (expected_mm probability : ℚ) :
    Recommendation :=
  let expected_inches := expected_mm / (127/5)
  let prob_percent := probability * 100
  let title := match severity with
    | .Critical => "Rain Imminent - Delay Applications"
    | .Warning => "Rain Expected - Plan Applications Carefully"
    | _ => "Rain in Forecast - Consider Timing"
  let description :=
    "Rain expected within " ++ toString hours ++ " hours: " ++ fmtFixed expected_inches 2
      ++ "\" (" ++ fmtFixed prob_percent 0
      ++ "% probability). Fertilizer and herbicide applications should be delayed."
  let action := match severity with
    | .Critical =>
        "Do NOT apply fertilizer, herbicide, or fungicide. Wait for dry conditions and at least 24 hours of no rain forecast."
    | .Warning =>
        "Delay chemical applications if possible. If application is critical, ensure product has time to dry (4-6 hours)."
    | _ =>
        "Monitor forecast before planning applications. Consider applying in early morning if afternoon rain expected."
  ((((((Recommendation.new "rain_delay" RecommendationCategory.General severity
      title description).with_explanation
      "Chemical lawn products (fertilizers, herbicides, fungicides) need time to be absorbed by plants or soil before rain. Rain within 24-48 hours of application can wash products away, reducing effectiveness and potentially polluting waterways.").with_data_point
      "Expected Rain" (fmtFixed expected_inches 2 ++ "\"") "OpenWeatherMap").with_data_point
      "Rain Probability" (fmtFixed prob_percent 0 ++ "%") "OpenWeatherMap").with_data_point
      "Forecast Window" (toString hours ++ "h") "OpenWeatherMap").with_action action)

/-- `RainDelayRule::evaluate`: the three forward horizons checked in
increasing order with early return (the Rust early `return`s are modelled as
an `Option` fallback chain). -/
def rainDelayEvaluate : RuleFn := fun clock env _profile _history =>
  match env.forecast with
  | none => none
  | some forecast =>
    let check12 : Option Recommendation :=
      match forecast.rain_expected_within clock.utcNow 12 (1/10) with
      | some rain12 =>
        if rain12.max_probability ≥ 7/10 ∨ rain12.expected_mm ≥ 5/2 then
          some (rainDelayBuild Severity.Critical 12 rain12.expected_mm rain12.max_probability)
        else none
      | none => none
    match check12 with
    | some rec => some rec
    | none =>
      let check24 : Option Recommendation :=
        match forecast.rain_expected_within clock.utcNow 24 (1/10) with
        | some rain24 =>
          if rain24.max_probability ≥ 1/2 ∨ rain24.expected_mm ≥ 5/2 then
            some (rainDelayBuild Severity.Warning 24 rain24.expected_mm rain24.max_probability)
          else none
        | none => none
      match check24 with
      | some rec => some rec
      | none =>
        match forecast.rain_expected_within clock.utcNow 48 (1/10) with
        | some rain48 =>
          if rain48.max_probability ≥ 3/10 ∨ rain48.expected_mm ≥ 5 then
            some (rainDelayBuild Severity.Advisory 48 rain48.expected_mm rain48.max_probability)
          else none
        | none => none

/-- `PreEmergentRule::evaluate`. -/
def preEmergentEvaluate : RuleFn := fun clock env profile history =>
  if !profile.grass_type.is_cool_season then none
  else
    let month := clock.localMonth
    if ¬(2 ≤ month ∧ month ≤ 5) then none
    else
      let current_year := clock.localYear
      let already_applied := history.any (fun app =>
        app.application_type == ApplicationType.PreEmergent
          && yearOfDays app.application_date == current_year)
      if already_applied then none
      else
        match env.soil_temp_7day_avg_f with
        | none => none
        | some soil_temp_avg =>
          match env.current with
          | none => none
          | some cur =>
            match cur.soil_temp_10_f with
            | none => none
            | some current_soil_temp =>
              if 50 ≤ soil_temp_avg ∧ soil_temp_avg ≤ 60 then
                let severity :=
                  if soil_temp_avg ≥ 55 then Severity.Warning else Severity.Advisory
                some ((((((Recommendation.new
                  ("pre_emergent_" ++ toString current_year)
                  RecommendationCategory.PreEmergent severity
                  "Pre-Emergent Application Window"
                  ("Soil temperature is in the optimal range for pre-emergent application. 7-day average: "
                    ++ fmtFixed soil_temp_avg 1 ++ "°F")).with_explanation
                  "Crabgrass germinates when soil temperature at 2-4 inch depth reaches 55°F for 3+ consecutive days. Apply pre-emergent (prodiamine or dithiopyr) before germination begins for best results.").with_data_point
                  "7-Day Avg Soil Temp" (fmtFixed soil_temp_avg 1 ++ "°F") "NOAA USCRN").with_data_point
                  "Current Soil Temp (10cm)" (fmtFixed current_soil_temp 1 ++ "°F") "NOAA USCRN").with_data_point
                  "Trend" env.soil_temp_trend.as_str "Calculated").with_action
                  "Apply pre-emergent herbicide (prodiamine, dithiopyr, or pendimethalin) at label rate. Water in within 24 hours if no rain.")
              else if 60 < soil_temp_avg ∧ soil_temp_avg ≤ 70 then
                some ((((Recommendation.new
                  ("pre_emergent_late_" ++ toString current_year)
                  RecommendationCategory.PreEmergent Severity.Critical
                  "Pre-Emergent Window Closing"
                  ("Soil temperature is above optimal range. Crabgrass may have begun germinating. 7-day average: "
                    ++ fmtFixed soil_temp_avg 1 ++ "°F")).with_explanation
                  "If pre-emergent hasn\x27t been applied, do so immediately. Consider a split application or use a product with post-emergent properties. After 70°F soil temp, pre-emergent efficacy drops significantly.").with_data_point
                  "7-Day Avg Soil Temp" (fmtFixed soil_temp_avg 1 ++ "°F") "NOAA USCRN").with_action
                  "Apply pre-emergent immediately if not yet done. Consider products with post-emergent activity like quinclorac combinations.")
              else none

/-- `spring_nitrogen.rs::build_too_early_warning`. -/
def springNitrogenTooEarly (soil_temp : ℚ) : Recommendation :=
  ((((Recommendation.new "spring_n_too_early" RecommendationCategory.Fertilizer
    Severity.Warning "Spring Fertilizer Applied Too Early"
    ("Fertilizer was applied while soil temp (" ++ fmtFixed soil_temp 1
      ++ "°F) is still below 55°F. This can weaken the lawn heading into summer.")).with_explanation
    "Applying nitrogen before the lawn is ready forces top (blade) growth while roots are still dormant. This depletes the plant\x27s carbohydrate reserves and creates a shallow root system. The result: a lawn that looks good briefly in spring but struggles in summer heat. The grass needs to wake up naturally first.").with_data_point
    "Soil Temp" (fmtFixed soil_temp 1 ++ "°F") "NOAA USCRN").with_data_point
    "Target Temp" "55°F minimum" "Agronomic").with_action
    "Avoid additional nitrogen applications until soil consistently reaches 55°F. Focus on other spring tasks: clean up debris, sharpen mower blades, check irrigation system. The pre-emergent window comes before fertilization."

/-- `spring_nitrogen.rs::build_patience_advisory`. -/
def springNitrogenPatience (soil_temp : ℚ) : Recommendation :=
  ((((Recommendation.new "spring_n_wait" RecommendationCategory.Fertilizer
    Severity.Info "Spring Fertilizer - Wait for Warmer Soil"
    ("Soil temperature (" ++ fmtFixed soil_temp 1
      ++ "°F) is still too cold for spring fertilization. Patience now pays off with a stronger lawn later.")).with_explanation
    "It\x27s tempting to fertilize as soon as you see green, but cool-season grass breaks dormancy from stored carbohydrates - not from soil nutrients. Wait until soil reaches 55°F and you\x27ve mowed 2-3 times. This ensures roots are active and ready to absorb nutrients. Early nitrogen forces weak top growth at the expense of root development.").with_data_point
    "Current Soil Temp" (fmtFixed soil_temp 1 ++ "°F") "NOAA USCRN").with_data_point
    "Target Soil Temp" "55°F" "Agronomic").with_action
    "Focus on spring prep: rake leaves/debris, check for disease damage, plan pre-emergent timing (that window comes first!). First fertilization should wait until after 2-3 mowings."

/-- `spring_nitrogen.rs::build_almost_ready`. -/
def springNitrogenAlmostReady (soil_temp : ℚ) : Recommendation :=
  ((((Recommendation.new "spring_n_almost" RecommendationCategory.Fertilizer
    Severity.Info "Spring Fertilizer - Almost Time"
    ("Soil temperature (" ++ fmtFixed soil_temp 1
      ++ "°F) is approaching the 55°F threshold. Spring fertilization window opening soon.")).with_explanation
    "You\x27re close to the right conditions for spring nitrogen. Wait for soil to consistently reach 55°F and ensure you\x27ve completed 2-3 mowing cycles. This confirms the grass is actively growing and roots are ready for nutrients. Remember: pre-emergent timing (50-55°F soil) comes before fertilization.").with_data_point
    "Current Soil Temp" (fmtFixed soil_temp 1 ++ "°F") "NOAA USCRN").with_data_point
    "Target" "55°F + 2-3 mowings" "Agronomic").with_action
    "Continue monitoring soil temperature. Start mowing when grass needs it. After your second or third mowing AND soil is 55°F+, apply light spring nitrogen. Don\x27t rush - a week or two of patience makes a stronger summer lawn."

/-- `spring_nitrogen.rs::build_ready_to_fertilize`. -/
def springNitrogenReady (soil_temp : ℚ) (profile : LawnProfile) : Recommendation :=
  let lawn_size := profile.lawn_size_sqft.getD 5000
  let n_needed := lawn_size / 1000 * (1/2)
  ((((Recommendation.new "spring_n_ready" RecommendationCategory.Fertilizer
    Severity.Advisory "Spring Fertilization Window Open"
    ("Soil temperature (" ++ fmtFixed soil_temp 1
      ++ "°F) indicates spring fertilization is appropriate. If you\x27ve mowed 2-3 times, light nitrogen is now beneficial.")).with_explanation
    "With soil at 55°F+, roots are active and can utilize applied nitrogen. Spring feeding should be LIGHT compared to fall - cool-season grass does most of its feeding in autumn. A light spring application (0.5 lb N/1000 sqft) supports spring growth without pushing excessive top growth that weakens the plant.").with_data_point
    "Soil Temp" (fmtFixed soil_temp 1 ++ "°F") "NOAA USCRN").with_data_point
    "Recommended Rate" "0.5 lb N/1000 sqft" "Agronomic").with_action
    ("Apply ~" ++ fmtFixed n_needed 1 ++ " lbs of nitrogen for your " ++ fmtFixed lawn_size 0
      ++ " sqft lawn (0.5 lb N/1000 sqft). Use slow-release nitrogen to avoid surge growth. This should be your ONLY spring nitrogen - save the heavy feeding for fall. Verify you\x27ve mowed 2-3 times first to confirm grass is actively growing.")

/-- `SpringNitrogenRule::evaluate`. -/
def springNitrogenEvaluate : RuleFn := fun clock env profile history =>
  if !profile.grass_type.is_cool_season then none
  else
    let today := clock.localToday
    let current_year := yearOfDays today
    let month := monthOfDays today
    if ¬(2 ≤ month ∧ month ≤ 5) then none
    else
      match env.soil_temp_7day_avg_f with
      | none => none
      | some soil_temp_avg =>
        match fromYmdOpt current_year 2 1 with
        | none => none
        | some spring_start =>
          let spring_fert_apps := history.filter (fun app =>
            app.application_type == ApplicationType.Fertilizer
              && yearOfDays app.application_date == current_year
              && spring_start ≤ app.application_date)
          let has_spring_fert := !spring_fert_apps.isEmpty
          if soil_temp_avg < 50 then
            if has_spring_fert then some (springNitrogenTooEarly soil_temp_avg)
            else some (springNitrogenPatience soil_temp_avg)
          else if 50 ≤ soil_temp_avg ∧ soil_temp_avg < 55 then
            if !has_spring_fert then some (springNitrogenAlmostReady soil_temp_avg)
            else none
          else if 55 ≤ soil_temp_avg ∧ soil_temp_avg ≤ 65 then
            if !has_spring_fert then some (springNitrogenReady soil_temp_avg profile)
            else none
          else none

/-- `GrubControlRule::evaluate`. -/
def grubControlEvaluate : RuleFn := fun clock env _profile history =>
  let today := clock.localToday
  let current_year := yearOfDays today
  match fromYmdOpt current_year 5 15 with
  | none => none
  | some window_start =>
    match fromYmdOpt current_year 7 4 with
    | none => none
    | some window_end =>
      if today < window_start ∨ today > window_end then none
      else
        let already_applied := history.any (fun app =>
          (app.application_type == ApplicationType.GrubControl
              || app.application_type == ApplicationType.Insecticide)
            && yearOfDays app.application_date == current_year
            && window_start ≤ app.application_date)
        if already_applied then none
        else
          match env.soil_temp_7day_avg_f with
          | none => none
          | some soil_temp_avg =>
            match env.current with
            | none => none
            | some cur =>
              match cur.soil_temp_10_f with
              | none => none
              | some current_soil_temp =>
                if 60 ≤ soil_temp_avg ∧ soil_temp_avg ≤ 75 then
                  let days_remaining := window_end - today
                  let severity :=
                    if days_remaining ≤ 14 then Severity.Warning else Severity.Advisory
                  some ((((((Recommendation.new
                    ("grub_control_" ++ toString current_year)
                    RecommendationCategory.GrubControl severity
                    "Grub Preventative Window"
                    ("Conditions are optimal for preventative grub control application. "
                      ++ toString days_remaining ++ " days remaining in window.")).with_explanation
                    "Japanese beetle larvae (grubs) are most vulnerable to preventative treatments when adults are laying eggs and larvae are feeding near the surface. Chlorantraniliprole (GrubEx) provides season-long control when applied now.").with_data_point
                    "7-Day Avg Soil Temp" (fmtFixed soil_temp_avg 1 ++ "°F") "NOAA USCRN").with_data_point
                    "Current Soil Temp (10cm)" (fmtFixed current_soil_temp 1 ++ "°F") "NOAA USCRN").with_data_point
                    "Window Closes" (formatBigBd window_end) "Agronomic").with_action
                    "Apply chlorantraniliprole (GrubEx) or imidacloprid at label rate. Water in with 0.5\" of irrigation or rain within 24 hours.")
                else if soil_temp_avg > 75 then
                  some (((Recommendation.new
                    ("grub_control_late_" ++ toString current_year)
                    RecommendationCategory.GrubControl Severity.Info
                    "Grub Control - Soil Warm"
                    "Soil temperature is elevated. Grub control may still be effective but optimal window is passing.").with_data_point
                    "7-Day Avg Soil Temp" (fmtFixed soil_temp_avg 1 ++ "°F") "NOAA USCRN").with_action
                    "If grub control hasn\x27t been applied, do so soon. Effectiveness decreases as larvae move deeper into soil.")
                else none

/-- `FertilizerRule::evaluate` (stress-avoidance block). -/
def fertilizerEvaluate : RuleFn := fun _clock env profile _history =>
  if !profile.grass_type.is_cool_season then none
  else
    match env.current with
    | none => none
    | some current =>
      match current.ambient_temp_f with
      | none => none
      | some ambient_temp =>
        let soil_moisture := current.primary_soil_moisture
        let heatWarnings : List String :=
          if ambient_temp > 85 then
            [("Ambient temperature (" ++ fmtFixed ambient_temp 1
              ++ "°F) exceeds 85°F heat stress threshold")]
          else []
        let heatDps : List DataPoint :=
          if ambient_temp > 85 then
            [⟨"Ambient Temp", fmtFixed ambient_temp 1 ++ "°F", "Patio Sensor"⟩]
          else []
        let moistWarnings : List String :=
          match soil_moisture with
          | some moisture =>
            if moisture < 1/10 then
              [("Soil moisture (" ++ fmtFixed moisture 2
                ++ ") indicates drought stress (below 0.10)")]
            else if moisture > 2/5 then
              [("Soil moisture (" ++ fmtFixed moisture 2
                ++ ") indicates saturation (above 0.40) - fertilizer may leach")]
            else []
          | none => []
        let moistDps : List DataPoint :=
          match soil_moisture with
          | some moisture =>
            if moisture < 1/10 ∨ moisture > 2/5 then
              [⟨"Soil Moisture", fmtFixed moisture 2, "NOAA USCRN"⟩]
            else []
          | none => []
        let warnings := heatWarnings ++ moistWarnings
        let data_points := heatDps ++ moistDps
        if warnings.isEmpty then none
        else
          let severity :=
            if decide (ambient_temp > 90)
                || (match soil_moisture with
                    | some m => decide (m < 1/20)
                    | none => false) then Severity.Critical
            else Severity.Warning
          let rec0 := ((Recommendation.new "fertilizer_block"
            RecommendationCategory.Fertilizer severity
            "Avoid Fertilizer Application"
            (String.intercalate ". " warnings)).with_explanation
            "Cool-season grasses like Tall Fescue experience heat stress above 85°F and may go partially dormant. Applying nitrogen during stress can cause fertilizer burn and damage the lawn. Wait for cooler temperatures or improved soil moisture.")
          let rec1 := data_points.foldl
            (fun r dp => r.with_data_point dp.label dp.value dp.source) rec0
          let rec2 :=
            match current.soil_temp_10_f with
            | some soil_temp =>
              rec1.with_data_point "Soil Temp (10cm)" (fmtFixed soil_temp 1 ++ "°F") "NOAA USCRN"
            | none => rec1
          some (rec2.with_action
            "Delay fertilizer application until ambient temperature drops below 85°F and soil moisture is between 0.10-0.40. Consider irrigation if drought-stressed.")

/-- `FungicideRule::evaluate`. -/
def fungicideEvaluate : RuleFn := fun _clock env profile _history =>
  if !profile.grass_type.is_cool_season then none
  else
    match env.current with
    | none => none
    | some current =>
      match current.humidity_percent with
      | none => none
      | some humidity =>
        match current.ambient_temp_f with
        | none => none
        | some ambient_temp =>
          match env.humidity_7day_avg with
          | none => none
          | some humidity_avg =>
            let high_humidity := humidity > 80
            let warm_temps := ambient_temp > 70
            let sustained_humidity := humidity_avg > 75
            if ¬high_humidity ∨ ¬warm_temps then none
            else
              let severity :=
                if humidity > 90 ∧ ambient_temp > 80 ∧ sustained_humidity then Severity.Critical
                else if sustained_humidity then Severity.Warning
                else Severity.Advisory
              some ((((((Recommendation.new "fungicide_risk"
                RecommendationCategory.Fungicide severity
                "Brown Patch Risk Elevated"
                ("Current conditions favor brown patch disease. Humidity: "
                  ++ fmtFixed humidity 0 ++ "%, Temp: " ++ fmtFixed ambient_temp 1 ++ "°F")).with_explanation
                "Brown patch (Rhizoctonia solani) thrives in hot, humid conditions with night temperatures above 65°F. Tall Fescue is particularly susceptible. Symptoms include circular patches of tan/brown turf with a dark \x27smoke ring\x27 border in morning dew.").with_data_point
                "Current Humidity" (fmtFixed humidity 0 ++ "%") "Patio Sensor").with_data_point
                "Ambient Temp" (fmtFixed ambient_temp 1 ++ "°F") "Patio Sensor").with_data_point
                "7-Day Avg Humidity" (fmtFixed humidity_avg 0 ++ "%") "Calculated").with_action
                "Consider preventive fungicide application (azoxystrobin, propiconazole, or thiophanate-methyl). Avoid evening irrigation - water early morning. Reduce nitrogen applications during high-risk periods.")

/-- `fall_overseeding.rs`: the action text suggesting a seeding rate. -/
def fallOverseedSeedingRate (profile : LawnProfile) : String :=
  if (profile.lawn_size_sqft.getD 5000) > 0 then
    let sqft := profile.lawn_size_sqft.getD 5000
    let lbs_needed := sqft / 1000 * 4
    "For your " ++ fmtFixed sqft 0 ++ " sqft lawn: ~" ++ fmtFixed lbs_needed 0
      ++ " lbs of TTTF seed (4 lbs/1000 sqft for overseeding). Mow low (2\"), dethatch or aerate first for seed-to-soil contact. Keep soil moist (light watering 2-3x daily) for 14 days. Avoid foot traffic for 3-4 weeks."
  else
    "Seed at 4 lbs per 1000 sqft for overseeding (8 lbs for bare soil). Mow low (2\"), dethatch or aerate first for seed-to-soil contact. Keep soil moist (light watering 2-3x daily) for 14 days. Avoid foot traffic for 3-4 weeks."

/-- `FallOverseedingRule::evaluate`. -/
def fallOverseedingEvaluate : RuleFn := fun clock env profile history =>
  if !profile.grass_type.is_cool_season then none
  else
    let today := clock.localToday
    let current_year := yearOfDays today
    match fromYmdOpt current_year 8 15 with
    | none => none
    | some window_start =>
      match fromYmdOpt current_year 10 31 with
      | none => none
      | some window_end =>
        if today < window_start ∨ today > window_end then none
        else
          let already_seeded := history.any (fun app =>
            app.application_type == ApplicationType.Overseed
              && yearOfDays app.application_date == current_year
              && window_start ≤ app.application_date)
          if already_seeded then none
          else
            match env.soil_temp_7day_avg_f with
            | none => none
            | some soil_temp_avg =>
              match env.current with
              | none => none
              | some cur =>
                match cur.soil_temp_10_f with
                | none => none
                | some current_soil_temp =>
                  let forecast_favorable :=
                    match env.forecast with
                    | some f =>
                      let days := f.next_days clock.utcNow 14
                      let avg_high :=
                        (days.map (fun d => d.high_temp_f)).sum / (max days.length 1 : ℚ)
                      decide (avg_high < 85)
                    | none => true
                  let days_remaining := window_end - today
                  if 50 ≤ soil_temp_avg ∧ soil_temp_avg ≤ 65 then
                    let severity :=
                      if 55 ≤ soil_temp_avg ∧ soil_temp_avg ≤ 62 then
                        if days_remaining < 21 then Severity.Warning else Severity.Advisory
                      else if days_remaining < 14 then Severity.Warning
                      else Severity.Advisory
                    let rec0 := ((((Recommendation.new
                      ("fall_overseeding_" ++ toString current_year)
                      RecommendationCategory.Overseeding severity
                      "Fall Overseeding Window Open"
                      ("Soil temperature (" ++ fmtFixed soil_temp_avg 1
                        ++ "°F) is ideal for TTTF seed germination. " ++ toString days_remaining
                        ++ " days remaining in optimal window.")).with_explanation
                      "Tall Fescue doesn\x27t spread on its own - overseeding is the only way to thicken your lawn and fill bare spots. Fall is THE best time because: (1) soil is warm for germination, (2) air is cool reducing seedling stress, (3) weed competition is minimal, (4) fall rains provide moisture. Seeds need 10-14 days of consistent moisture to germinate.").with_data_point
                      "7-Day Avg Soil Temp" (fmtFixed soil_temp_avg 1 ++ "°F") "NOAA USCRN").with_data_point
                      "Current Soil Temp" (fmtFixed current_soil_temp 1 ++ "°F") "NOAA USCRN").with_data_point
                      "Days Remaining" (toString days_remaining) "Calendar"
                    let rec1 :=
                      if !forecast_favorable then
                        rec0.with_data_point "Forecast Note"
                          "Hot weather ahead - monitor seedlings" "OpenWeatherMap"
                      else rec0
                    some (rec1.with_action (fallOverseedSeedingRate profile))
                  else if soil_temp_avg > 65 ∧ soil_temp_avg ≤ 75 then
                    match fromYmdOpt current_year 9 15 with
                    | none => none
                    | some mid_september =>
                      if today < mid_september then
                        some ((((Recommendation.new
                          ("fall_overseeding_wait_" ++ toString current_year)
                          RecommendationCategory.Overseeding Severity.Info
                          "Overseeding Window Approaching"
                          ("Soil temperature (" ++ fmtFixed soil_temp_avg 1
                            ++ "°F) is still warm. Wait for temps to drop below 65°F for best germination.")).with_explanation
                          "TTTF germinates best when soil is 50-65°F. Seeding when soil is too warm can stress seedlings. The window typically opens mid-September in Zone 7a.").with_data_point
                          "Soil Temp" (fmtFixed soil_temp_avg 1 ++ "°F") "NOAA USCRN").with_action
                          "Prepare for overseeding: order seed, plan aeration, gather supplies. Monitor soil temps weekly.")
                      else
                        some (((Recommendation.new
                          ("fall_overseeding_late_" ++ toString current_year)
                          RecommendationCategory.Overseeding Severity.Warning
                          "Overseeding - Soil Warm but Window Closing"
                          ("Soil (" ++ fmtFixed soil_temp_avg 1 ++ "°F) is warmer than ideal, but "
                            ++ toString days_remaining
                            ++ " days remain in window. Consider seeding soon despite conditions.")).with_data_point
                          "Soil Temp" (fmtFixed soil_temp_avg 1 ++ "°F") "NOAA USCRN").with_action
                          "Seed soon if you haven\x27t already. Water more frequently to keep seedlings cool. Soil temps will drop as nights get cooler.")
                  else if soil_temp_avg < 50 then
                    if days_remaining > 14 then
                      some (((Recommendation.new
                        ("fall_overseeding_cold_" ++ toString current_year)
                        RecommendationCategory.Overseeding Severity.Warning
                        "Overseeding Window Narrowing - Cool Soil"
                        ("Soil temperature (" ++ fmtFixed soil_temp_avg 1
                          ++ "°F) is below optimal. Germination will be slow. Seed immediately if planned.")).with_data_point
                        "Soil Temp" (fmtFixed soil_temp_avg 1 ++ "°F") "NOAA USCRN").with_action
                        "If overseeding, do it NOW. Germination slows significantly below 50°F. Seedlings need 4-6 weeks before hard frost to establish.")
                    else none
                  else none

/-- `fall_fertilization.rs::FallPhase`. -/
inductive FallPhase where
  | Early | Mid | Late | TooLate
deriving DecidableEq

/-- `fall_fertilization.rs::determine_fall_phase` (the Rust `from_ymd_opt`
calls here are followed by `unwrap()` on always-valid dates). -/
def determine_fall_phase (today : ℤ) (year : ℤ) : FallPhase :=
  let oct_1 := daysFromCivil year 10 1
  let nov_1 := daysFromCivil year 11 1
  let dec_1 := daysFromCivil year 12 1
  if today < oct_1 then FallPhase.Early
  else if today < nov_1 then FallPhase.Mid
  else if today < dec_1 then FallPhase.Late
  else FallPhase.TooLate

/-- `fall_fertilization.rs::build_early_fall_rec`. -/
def buildEarlyFallRec (soil_temp : ℚ) (profile : LawnProfile)
    (env : EnvironmentalSummary) : Recommendation :=
  let lawn_size := profile.lawn_size_sqft.getD 5000
  let n_needed := lawn_size / 1000 * (1/2)
  (((((Recommendation.new "fall_fert_early" RecommendationCategory.Fertilizer
    Severity.Advisory "Early Fall Fertilization"
    ("Soil temperature (" ++ fmtFixed soil_temp 1
      ++ "°F) is ideal for fall fertilization. Time to begin fall nitrogen program.")).with_explanation
    "Early fall feeding helps TTTF recover from summer stress. Apply light nitrogen (0.5 lb N per 1000 sqft) to support recovery without pushing excessive top growth. This sets up the lawn for the critical mid-fall and winterizer applications.").with_data_point
    "Soil Temp" (fmtFixed soil_temp 1 ++ "°F") "NOAA USCRN").with_data_point
    "Phase" "Early Fall (Recovery)" "Calendar").with_data_point
    "Trend" env.soil_temp_trend.as_str "Calculated").with_action
    ("Apply ~" ++ fmtFixed n_needed 1 ++ " lbs of nitrogen for your " ++ fmtFixed lawn_size 0
      ++ " sqft lawn (0.5 lb N/1000 sqft). Use a balanced fertilizer or slow-release nitrogen. Water in lightly if no rain expected.")

/-- `fall_fertilization.rs::build_mid_fall_rec`. -/
def buildMidFallRec (soil_temp : ℚ) (app_count : ℕ) (profile : LawnProfile)
    (env : EnvironmentalSummary) : Recommendation :=
  let lawn_size := profile.lawn_size_sqft.getD 5000
  let n_needed := lawn_size / 1000 * (3/4)
  let severity := if app_count = 0 then Severity.Warning else Severity.Advisory
  let title :=
    if app_count = 0 then "Mid-Fall Fertilization - Don\x27t Miss Fall Feeding!"
    else "Mid-Fall Fertilization"
  ((((((Recommendation.new "fall_fert_mid" RecommendationCategory.Fertilizer
    severity title
    ("Prime time for fall fertilization. Soil temp " ++ fmtFixed soil_temp 1
      ++ "°F is optimal for root uptake and carbohydrate storage.")).with_explanation
    "Mid-fall (October) is the MOST important fertilization of the year for TTTF. Roots are actively growing while top growth slows. Nitrogen applied now is stored as carbohydrates, fueling winter hardiness and explosive spring green-up. This single application has more impact than any other feeding.").with_data_point
    "Soil Temp" (fmtFixed soil_temp 1 ++ "°F") "NOAA USCRN").with_data_point
    "Phase" "Mid-Fall (Primary)" "Calendar").with_data_point
    "Fall Apps So Far" (toString app_count) "History").with_data_point
    "Trend" env.soil_temp_trend.as_str "Calculated").with_action
    ("Apply ~" ++ fmtFixed n_needed 1 ++ " lbs of nitrogen for your " ++ fmtFixed lawn_size 0
      ++ " sqft lawn (0.75 lb N/1000 sqft). A slow-release or balanced fertilizer works well. This is the most important feeding of the year - don\x27t skip it!")

/-- `fall_fertilization.rs::build_late_fall_rec`. -/
def buildLateFallRec (soil_temp : ℚ) (app_count : ℕ) (profile : LawnProfile) :
    Recommendation :=
  let lawn_size := profile.lawn_size_sqft.getD 5000
  let n_needed := lawn_size / 1000 * 1
  let severity := if app_count = 0 then Severity.Warning else Severity.Advisory
  (((((Recommendation.new "fall_fert_winterizer" RecommendationCategory.Fertilizer
    severity "Winterizer Application"
    ("Time for final fall fertilization. Soil temp " ++ fmtFixed soil_temp 1
      ++ "°F - grass is slowing but roots are still active.")).with_explanation
    "The \x27winterizer\x27 application provides nitrogen that the grass stores over winter. Applied when growth has slowed but before the ground freezes, this nitrogen is available immediately when spring arrives, giving you the fastest, greenest spring lawn. Apply even if grass appears dormant - roots are still working.").with_data_point
    "Soil Temp" (fmtFixed soil_temp 1 ++ "°F") "NOAA USCRN").with_data_point
    "Phase" "Late Fall (Winterizer)" "Calendar").with_data_point
    "Fall Apps So Far" (toString app_count) "History").with_action
    ("Apply ~" ++ fmtFixed n_needed 1 ++ " lbs of nitrogen for your " ++ fmtFixed lawn_size 0
      ++ " sqft lawn (1.0 lb N/1000 sqft). Quick-release nitrogen is fine for winterizer since you want immediate uptake. Apply before ground freezes, even if grass looks dormant.")

/-- `FallFertilizationRule::evaluate`. -/
def fallFertilizationEvaluate : RuleFn := fun clock env profile history =>
  if !profile.grass_type.is_cool_season then none
  else
    let today := clock.localToday
    let current_year := yearOfDays today
    match fromYmdOpt current_year 9 1 with
    | none => none
    | some window_start =>
      match fromYmdOpt current_year 11 30 with
      | none => none
      | some window_end =>
        if today < window_start ∨ today > window_end then none
        else
          match env.soil_temp_7day_avg_f with
          | none => none
          | some soil_temp_avg =>
            let fall_apps := history.filter (fun app =>
              app.application_type == ApplicationType.Fertilizer
                && yearOfDays app.application_date == current_year
                && window_start ≤ app.application_date)
            let app_count := fall_apps.length
            let last_app_date := (fall_apps.map (fun a => a.application_date)).max?
            let days_since_last := (last_app_date.map (fun d => today - d)).getD 999
            let phase := determine_fall_phase today current_year
            let soil_temp_ok := 45 ≤ soil_temp_avg ∧ soil_temp_avg ≤ 65
            match phase with
            | FallPhase.Early =>
              if app_count = 0 ∧ soil_temp_ok then
                some (buildEarlyFallRec soil_temp_avg profile env)
              else none
            | FallPhase.Mid =>
              if app_count < 2 ∧ days_since_last ≥ 21 ∧ soil_temp_ok then
                some (buildMidFallRec soil_temp_avg app_count profile env)
              else none
            | FallPhase.Late =>
              if app_count < 3 ∧ days_since_last ≥ 21 ∧ soil_temp_avg ≥ 40 then
                some (buildLateFallRec soil_temp_avg app_count profile)
              else none
            | FallPhase.TooLate => none

/-- `HeatStressRule::build_recommendation`. -/
def heatStressBuild (severity : Severity) (max_temp : ℚ) (hot_days : ℕ) : Recommendation :=
  let title := match severity with
    | .Critical => "Extreme Heat Stress Expected"
    | .Warning => "Heat Stress Warning"
    | _ => "Warm Weather Ahead"
  let description :=
    "Temperatures up to " ++ fmtFixed max_temp 0 ++ "°F expected over the next "
      ++ toString (max hot_days 1)
      ++ " days. Cool-season grasses experience stress above 85°F."
  let action := match severity with
    | .Critical =>
        "Avoid ALL fertilizer applications. Raise mowing height to 4+ inches. Water early morning (before 8 AM) only. Do not mow during peak heat. Accept some dormancy as natural protection."
    | .Warning =>
        "Avoid fertilizer applications, especially high-nitrogen. Raise mowing height to 3.5-4 inches. Water deeply in early morning. Consider skipping mowing to reduce stress."
    | _ =>
        "Consider raising mowing height. Water early morning if needed. Avoid fertilizer applications until temps moderate."
  ((((Recommendation.new "heat_stress_forecast" RecommendationCategory.HeatStress
    severity title description).with_explanation
    "Tall Fescue and other cool-season grasses evolved for temperatures between 60-75°F. Above 85°F, photosynthesis slows and root growth stops. Above 90°F, the grass may enter summer dormancy. Fertilizing during heat stress forces top growth at the expense of roots, weakening the plant. Taller grass shades the crown and soil, reducing heat stress.").with_data_point
    "Max Forecast Temp" (fmtFixed max_temp 0 ++ "°F") "OpenWeatherMap").with_data_point
    "Hot Days" (toString hot_days) "OpenWeatherMap").with_action action

/-- `HeatStressRule::evaluate`. -/
def heatStressEvaluate : RuleFn := fun clock env profile _history =>
  if !profile.grass_type.is_cool_season then none
  else
    match env.forecast with
    | none => none
    | some forecast =>
      match forecast.max_temp_next_days clock.utcNow 3 with
      | none => none
      | some max_temp =>
        if max_temp < 85 then none
        else
          let hot_days :=
            ((forecast.next_days clock.utcNow 5).takeWhile
              (fun d => d.high_temp_f ≥ 85)).length
          let severity :=
            if max_temp ≥ 95 then Severity.Critical
            else if max_temp ≥ 90 then Severity.Warning
            else Severity.Advisory
          some (heatStressBuild severity max_temp hot_days)

/-- `IrrigationForecastRule::build_recommendation`. -/
def irrigationBuild (severity : Severity) (soil_moisture : ℚ) (dry_days : ℕ) :
    Recommendation :=
  let title := match severity with
    | .Critical => "Irrigation Urgently Needed"
    | .Warning => "Irrigation Recommended Soon"
    | _ => "Consider Irrigation"
  let description :=
    "Soil moisture is low (" ++ fmtFixed (soil_moisture * 100) 0
      ++ "%) and no significant rain is forecasted for " ++ toString dry_days
      ++ " days. Cool-season grasses need consistent moisture."
  let action := match severity with
    | .Critical =>
        "Water immediately. Apply 1-1.5 inches over the next 2-3 days to prevent drought stress. Water early morning (5-9 AM) to minimize evaporation and disease."
    | .Warning =>
        "Plan to irrigate within the next 1-2 days. Apply 0.5-1 inch of water. Deep, infrequent watering is better than shallow daily watering."
    | _ =>
        "Monitor soil moisture and plan irrigation if conditions don\x27t change. Consider a deep watering session in early morning."
  ((((Recommendation.new "irrigation_forecast" RecommendationCategory.Irrigation
    severity title description).with_explanation
    "Tall Fescue requires 1-1.5 inches of water per week during the growing season. When soil moisture drops below 10-15% and no rain is expected, supplemental irrigation prevents drought stress, thinning, and weed invasion. Water deeply (to 6 inches) to encourage deep root growth.").with_data_point
    "Soil Moisture" (fmtFixed (soil_moisture * 100) 0 ++ "%") "NOAA USCRN").with_data_point
    "Dry Days Forecast" (toString dry_days ++ " days") "OpenWeatherMap").with_action action

/-- `IrrigationForecastRule::evaluate`. -/
def irrigationForecastEvaluate : RuleFn := fun clock env _profile _history =>
  match env.forecast with
  | none => none
  | some forecast =>
    match env.current with
    | none => none
    | some current =>
      match current.primary_soil_moisture with
      | none => none
      | some soil_moisture =>
        if soil_moisture ≥ 1/5 then none
        else
          let rain_5day := forecast.rain_expected_within clock.utcNow 120 (1/10)
          if rain_5day.isSome then none
          else
            let total_precip : ℚ :=
              ((forecast.next_days clock.utcNow 5).map
                (fun d => d.total_precipitation_mm)).sum
            if total_precip > 5/2 then none
            else
              let severity :=
                if soil_moisture < 1/10 then Severity.Critical
                else if soil_moisture < 3/20 then Severity.Warning
                else Severity.Advisory
              let dry_days :=
                (forecast.daily_summary.takeWhile (fun d =>
                  d.total_precipitation_mm < 5/2 ∧ d.max_precipitation_prob < 1/2)).length
              some (irrigationBuild severity soil_moisture dry_days)

/-- `application_window.rs::WindowQuality`. -/
structure WindowQuality where
  temp_ok : Bool
  wind_ok : Bool
  humidity_ok : Bool
  no_rain_before : Bool
  no_rain_after : Bool
  temp : ℚ
  wind : ℚ
  humidity : ℚ
deriving DecidableEq

/-- `WindowQuality::is_good`. -/
def WindowQuality.is_good (q : WindowQuality) : Bool :=
  q.no_rain_before && q.no_rain_after && q.temp_ok

/-- `WindowQuality::score`: the discrete weighted rubric. -/
def WindowQuality.score (q : WindowQuality) : ℕ :=
  (if q.temp_ok then 10 else 0) + (if q.wind_ok then 5 else 0)
    + (if q.humidity_ok then 3 else 0) + (if q.no_rain_before then 10 else 0)
    + (if q.no_rain_after then 15 else 0)
    + (if 55 ≤ q.temp ∧ q.temp ≤ 75 then 5 else 0)

/-- `WindowQuality::describe`. -/
def WindowQuality.describe (q : WindowQuality) : String :=
  let conditions : List String :=
    (if 55 ≤ q.temp ∧ q.temp ≤ 75 then ["ideal temps"]
      else if q.temp_ok then ["acceptable temps"] else [])
    ++ (if q.wind_ok ∧ q.wind < 5 then ["calm winds"]
      else if q.wind_ok then ["light winds"] else [])
    ++ (if q.humidity_ok ∧ q.humidity < 70 then ["low humidity"]
      else if q.humidity_ok then ["moderate humidity"] else [])
  if conditions.isEmpty then "marginal conditions"
  else String.intercalate ", " conditions

/-- `ApplicationWindowRule::assess_day_quality` (the rule re-reads
`env.forecast.as_ref().unwrap()`, here passed as `forecast`). -/
def assess_day_quality (day : DailyForecast) (env : EnvironmentalSummary)
    (forecast : WeatherForecast) : WindowQuality :=
  let avg_temp := (day.high_temp_f + day.low_temp_f) / 2
  let temp_ok := decide (50 ≤ avg_temp) && decide (day.high_temp_f ≤ 85)
  let wind_ok := decide (day.avg_wind_speed_mph < 10)
  let humidity_ok := decide (day.avg_humidity < 85)
  let day_idx := (forecast.daily_summary.findIdx? (fun d => d.date == day.date)).getD 0
  let no_rain_before :=
    if day_idx > 0 then
      match forecast.daily_summary[day_idx - 1]? with
      | some prev =>
        decide (prev.total_precipitation_mm < 5/2)
          && decide (prev.max_precipitation_prob < 1/2)
      | none => false
    else
      decide ((env.precipitation_7day_total_mm.getD 0) < 25)
  let current_dry :=
    decide (day.total_precipitation_mm < 5/2) && decide (day.max_precipitation_prob < 1/2)
  let next_day_dry :=
    ((forecast.daily_summary[day_idx + 1]?).map (fun d =>
      decide (d.total_precipitation_mm < 5/2) && decide (d.max_precipitation_prob < 1/2))).getD
      true
  let no_rain_after := current_dry && next_day_dry
  { temp_ok := temp_ok, wind_ok := wind_ok, humidity_ok := humidity_ok,
    no_rain_before := no_rain_before, no_rain_after := no_rain_after,
    temp := avg_temp, wind := day.avg_wind_speed_mph, humidity := day.avg_humidity }

/-- `ApplicationWindowRule::build_recommendation`.  (The rule source
constructs the category `ApplicationTiming`, a variant not present in the
models file; mapped to `General` as for the rain-delay rule.) -/
def applicationWindowBuild (date : ℤ) (quality : WindowQuality)
    (total_good_days : ℕ) : Recommendation :=
  let day_name := weekdayName date
  let title := "Good Application Window: " ++ day_name
  let description :=
    day_name ++ " (" ++ formatAbbrBd date ++ ") shows " ++ quality.describe
      ++ " for lawn product applications. " ++ toString total_good_days
      ++ " good day(s) in the next 5-day forecast."
  (((((Recommendation.new "application_window" RecommendationCategory.General
    Severity.Info title description).with_explanation
    "Optimal conditions for fertilizer, herbicide, and fungicide applications include: dry conditions (no rain 24h before, 48h after), moderate temperatures (50-80°F), low wind (<10mph to prevent drift), and moderate humidity (<85%). Early morning applications are often best.").with_data_point
    "Expected Temp" (fmtFixed quality.temp 0 ++ "°F") "OpenWeatherMap").with_data_point
    "Wind Speed" (fmtFixed quality.wind 1 ++ "mph") "OpenWeatherMap").with_data_point
    "Humidity" (fmtFixed quality.humidity 0 ++ "%") "OpenWeatherMap").with_action
    ("Plan applications for " ++ day_name
      ++ " if weather holds. Check forecast morning-of to confirm conditions. Apply in early morning for best results.")

/-- `ApplicationWindowRule::evaluate`. -/
def applicationWindowEvaluate : RuleFn := fun _clock env _profile _history =>
  match env.forecast with
  | none => none
  | some forecast =>
    let good_days : List (ℤ × WindowQuality) :=
      (forecast.daily_summary.take 5).filterMap (fun day =>
        let quality := assess_day_quality day env forecast
        if quality.is_good then some (day.date, quality) else none)
    if good_days.isEmpty then none
    else
      match lastMaxByKey (fun x => x.2.score) good_days with
      | none => none
      | some best => some (applicationWindowBuild best.1 best.2 good_days.length)

/-- `DiseasePressureRule::assess_current_risk`. -/
def assess_current_risk (env : EnvironmentalSummary) : ℕ :=
  let humidityRisk :=
    match env.current with
    | some current =>
      (match current.humidity_percent with
        | some humidity => if humidity ≥ 90 then 2 else if humidity ≥ 80 then 1 else 0
        | none => 0)
      + (match current.ambient_temp_f with
        | some temp => if 75 ≤ temp ∧ temp ≤ 90 then 1 else 0
        | none => 0)
    | none => 0
  let precipRisk :=
    match env.precipitation_7day_total_mm with
    | some precip => if precip > 25 then 1 else 0
    | none => 0
  let sustainedRisk :=
    match env.humidity_7day_avg with
    | some avg_humidity => if avg_humidity ≥ 80 then 1 else 0
    | none => 0
  humidityRisk + precipRisk + sustainedRisk

/-- `DiseasePressureRule::assess_forecast_risk`. -/
def assess_forecast_risk (utcNow : ℚ) (env : EnvironmentalSummary) : ℕ :=
  match env.forecast with
  | none => 0
  | some forecast =>
    let risk := ((forecast.next_days utcNow 5).map (fun day =>
      let high_humidity := day.avg_humidity ≥ (80 : ℚ)
      let warm_nights := day.low_temp_f ≥ (65 : ℚ)
      let warm_days := day.high_temp_f ≥ 75 ∧ day.high_temp_f ≤ 90
      let has_rain := day.total_precipitation_mm ≥ 5/2 ∨ day.max_precipitation_prob ≥ 1/2
      (if warm_nights ∧ high_humidity then 1 else 0)
        + (if warm_days ∧ high_humidity then 1 else 0)
        + (if has_rain ∧ warm_days then 1 else 0))).sum
    min risk 6

/-- `DiseasePressureRule::identify_likely_disease`. -/
def identify_likely_disease (utcNow : ℚ) (env : EnvironmentalSummary) : String :=
  let warm_nights :=
    match env.forecast with
    | some f => (f.next_days utcNow 3).any (fun d => d.low_temp_f ≥ 68)
    | none => false
  let very_warm_days :=
    match env.forecast with
    | some f => (f.next_days utcNow 3).any (fun d => d.high_temp_f ≥ 85)
    | none => false
  let current_humid :=
    match env.current with
    | some c =>
      match c.humidity_percent with
      | some h => decide (h ≥ 85)
      | none => false
    | none => false
  if warm_nights && very_warm_days && current_humid then "Brown Patch"
  else if warm_nights && !very_warm_days then "Dollar Spot"
  else "Fungal Disease"

/-- `DiseasePressureRule::build_recommendation`.  (The rule source constructs
the category `DiseasePressure`, a variant not present in the models file;
mapped to `General`.) -/
def diseasePressureBuild (severity : Severity) (disease_type : String)
    (humid_days : ℕ) (current_conditions_bad : Bool) (env : EnvironmentalSummary) :
    Recommendation :=
  let title := match severity with
    | .Critical => "High " ++ disease_type ++ " Risk - Act Now"
    | .Warning => disease_type ++ " Risk Elevated"
    | _ => disease_type ++ " Conditions Developing"
  let current_note :=
    if current_conditions_bad then "Current conditions already favor disease. " else ""
  let description :=
    current_note ++ "Forecast shows " ++ toString humid_days
      ++ " days of disease-favorable conditions (high humidity, warm temps). "
      ++ disease_type ++ " thrives in these conditions."
  let action := match severity with
    | .Critical =>
        "Apply preventative fungicide immediately (azoxystrobin, propiconazole). Water ONLY in early morning (5-7 AM). Avoid evening irrigation. Reduce nitrogen. Monitor for circular brown patches."
    | .Warning =>
        "Consider preventative fungicide if lawn is valuable or has history of disease. Switch to early morning watering only. Avoid high-nitrogen fertilizer. Inspect lawn for early symptoms."
    | _ =>
        "Monitor conditions. Water early morning only. Prepare fungicide for application if conditions worsen. Avoid fertilizer during high-risk period."
  let rec0 := ((Recommendation.new "disease_pressure_forecast"
    RecommendationCategory.General severity title description).with_explanation
    (disease_type
      ++ " is caused by fungal pathogens that thrive in warm, humid conditions. Night temperatures above 65°F combined with humidity above 80% create ideal infection conditions. Symptoms include circular patches of tan/brown turf, often with a darker \x27smoke ring\x27 border visible in early morning dew. Preventative fungicide is more effective than curative treatment.")).with_action
    action
  let rec1 :=
    match env.current with
    | some c =>
      match c.humidity_percent with
      | some humidity =>
        rec0.with_data_point "Current Humidity" (fmtFixed humidity 0 ++ "%") "Patio Sensor"
      | none => rec0
    | none => rec0
  let rec2 := rec1.with_data_point "High-Risk Days" (toString humid_days) "OpenWeatherMap"
  match env.humidity_7day_avg with
  | some avg_humidity =>
    rec2.with_data_point "7-Day Avg Humidity" (fmtFixed avg_humidity 0 ++ "%") "Calculated"
  | none => rec2

/-- `DiseasePressureRule::evaluate`. -/
def diseasePressureEvaluate : RuleFn := fun clock env profile _history =>
  if !profile.grass_type.is_cool_season then none
  else
    match env.forecast with
    | none => none
    | some forecast =>
      let current_risk := assess_current_risk env
      let high_humidity_days := forecast.consecutive_high_humidity_days 80
      let forecast_risk := assess_forecast_risk clock.utcNow env
      let combined_risk := current_risk + forecast_risk
      if combined_risk < 2 then none
      else
        let severity :=
          if combined_risk ≥ 5 ∨ (current_risk ≥ 2 ∧ forecast_risk ≥ 3) then Severity.Critical
          else if combined_risk ≥ 3 then Severity.Warning
          else Severity.Advisory
        let disease_type := identify_likely_disease clock.utcNow env
        some (diseasePressureBuild severity disease_type high_humidity_days
          (decide (current_risk > 0)) env)

/-! ### Rule evaluation engine (`src/logic/rules/engine.rs`) -/

/-- The fixed rule registry of `RulesEngine::new`, in declaration order. -/
def rulesRegistry : List RuleFn :=
  [preEmergentEvaluate, springNitrogenEvaluate,
   grubControlEvaluate, fertilizerEvaluate, fungicideEvaluate,
   fallOverseedingEvaluate, fallFertilizationEvaluate,
   rainDelayEvaluate, irrigationForecastEvaluate, heatStressEvaluate,
   applicationWindowEvaluate, diseasePressureEvaluate]

/-- `RulesEngine::evaluate`: `filter_map` of every rule's evaluation over the
registry, in registry order. -/
def engineEvaluate (rules : List RuleFn) (clock : Clock) (env : EnvironmentalSummary)
    (profile : LawnProfile) (history : List Application) : List Recommendation :=
  rules.filterMap (fun rule => rule clock env profile history)

/-! ### Specification-side window characterizations

Closed-form descriptions of what the `rain_expected_within` scan computes,
used to state its contract independently of the fold. -/

/-- Total precipitation accumulated over a window. -/
def windowPrecipTotal (w : List ForecastPoint) : ℚ :=
  (w.map (fun p => p.precipitation_mm)).sum

/-- Maximum precipitation probability tracked over a window, starting from
the scan's initial value `0.0`. -/
def windowMaxProb (w : List ForecastPoint) : ℚ :=
  (w.map (fun p => p.precipitation_prob)).foldl max 0

/-- Timestamp of the first point of a window with precipitation above 0.1 mm
or probability above 0.5, if any. -/
def windowFirstRain (w : List ForecastPoint) : Option ℚ :=
  (w.find? (fun p =>
    decide (p.precipitation_mm > 1/10) || decide (p.precipitation_prob > 1/2))).map
    (fun p => p.timestamp)

/-- The non-condition fields of a daily aggregate, used to state that they do
not depend on the frequency map's iteration order. -/
def dailyNumeric (d : DailyForecast) :
    ℤ × ℚ × ℚ × ℚ × ℚ × ℚ × ℚ × Option ℚ :=
  (d.date, d.high_temp_f, d.low_temp_f, d.avg_humidity, d.total_precipitation_mm,
    d.max_precipitation_prob, d.avg_wind_speed_mph, d.max_wind_gust_mph)

/-! ### Concrete fixtures for counterexamples and witnesses -/

/-- A default cool-season profile (`LawnProfile::default()`). -/
def coolProfile : LawnProfile :=
  { name := "Main Lawn", grass_type := GrassType.TallFescue, usda_zone := "7a" }

/-- Day number of 2024-03-15 (a March date). -/
def march15_2024 : ℤ := daysFromCivil 2024 3 15

/-- A clock whose local date is 2024-03-15 and whose UTC instant is the
epoch. -/
def marchClock : Clock := ⟨0, march15_2024⟩

/-- A soil reading carrying only a 10 cm soil temperature. -/
def soilReading (t : ℚ) : EnvironmentalReading :=
  { timestamp := 0, source := DataSource.SoilData, soil_temp_10_f := some t }

/-- 48 readings whose newer 24-window average exceeds the older one by
exactly 2°F. -/
def c4boundaryReadings : List EnvironmentalReading :=
  List.replicate 24 (soilReading 52) ++ List.replicate 24 (soilReading 50)

/-- 48 readings whose newer 24-window average exceeds the older one by 3°F. -/
def c4risingReadings : List EnvironmentalReading :=
  List.replicate 24 (soilReading 53) ++ List.replicate 24 (soilReading 50)

/-- A forecast point at instant `t` with precipitation probability `prob` and
precipitation `mm`. -/
def basePoint (t prob mm : ℚ) : ForecastPoint :=
  { timestamp := t, temp_f := 70, feels_like_f := 70, humidity_percent := 50,
    precipitation_mm := mm, precipitation_prob := prob, wind_speed_mph := 5,
    wind_gust_mph := none, cloud_cover_percent := 0,
    weather_condition := WeatherCondition.Clear }

/-- The rain-delay scenario forecast: rain probability 0.8 at 6 hours and 0.2
at 30 hours (relative to `utcNow = 0`). -/
def c2forecast : WeatherForecast :=
  { fetched_at := 0, location := ⟨"Testville", "US", 0, 0⟩,
    hourly := [basePoint (6 * 3600) (8/10) 0, basePoint (30 * 3600) (2/10) 0],
    daily_summary := [] }

/-- An environmental summary holding only the scenario forecast. -/
def c2env : EnvironmentalSummary := { forecast := some c2forecast }

/-- A forecast whose single point stays at or below both first-rain
thresholds (0.1 mm, probability 0.5) while reaching a 0.1 mm accumulation. -/
def c10forecast : WeatherForecast :=
  { fetched_at := 0, location := ⟨"Testville", "US", 0, 0⟩,
    hourly := [basePoint 3600 (1/2) (1/10)], daily_summary := [] }

/-- A daily aggregate on the day after the epoch. -/
def c5day : DailyForecast :=
  { date := 1, high_temp_f := 70, low_temp_f := 50, avg_humidity := 50,
    total_precipitation_mm := 0, max_precipitation_prob := 0,
    dominant_condition := WeatherCondition.Clear, avg_wind_speed_mph := 5,
    max_wind_gust_mph := none }

/-- A forecast with one hourly point in the past and one exactly at the
12-hour cutoff. -/
def c5forecast : WeatherForecast :=
  { fetched_at := 0, location := ⟨"Testville", "US", 0, 0⟩,
    hourly := [basePoint (-3600) 0 0, basePoint (12 * 3600) 0 0,
      basePoint (13 * 3600) 0 0],
    daily_summary := [c5day] }

/-- Two same-day points whose conditions `Clear` and `Rain` tie in
frequency. -/
def c6points : List ForecastPoint :=
  [basePoint 0 0 0,
   { basePoint 3600 0 0 with weather_condition := WeatherCondition.Rain }]

/-- One legitimate iteration order of the tied condition-frequency map. -/
def c6orderA : ℤ → List WeatherCondition :=
  fun _ => [WeatherCondition.Clear, WeatherCondition.Rain]

/-- The other legitimate iteration order of the same map. -/
def c6orderB : ℤ → List WeatherCondition :=
  fun _ => [WeatherCondition.Rain, WeatherCondition.Clear]

/-- A current reading with a present 10 cm soil temperature. -/
def c8reading : EnvironmentalReading := soilReading 56

/-- The end-to-end scenario summary: 7-day soil average 57°F with a current
reading present. -/
def c8env : EnvironmentalSummary :=
  { soil_temp_7day_avg_f := some 57, current := some c8reading }

/-- The same scenario summary with the current reading absent. -/
def c8envNoCurrent : EnvironmentalSummary := { soil_temp_7day_avg_f := some 57 }

/-- A pre-emergent application logged on 2024-02-20. -/
def pastApp : Application :=
  { lawn_profile_id := 1, application_type := ApplicationType.PreEmergent,
    application_date := daysFromCivil 2024 2 20 }

/-- A summary with a current reading and a forecast but no 7-day soil
average. -/
def c9envNoAvg : EnvironmentalSummary :=
  { current := some c8reading, forecast := some c2forecast }

/-- A reading carrying soil temperature, ambient temperature and humidity. -/
def c9reading : EnvironmentalReading :=
  { timestamp := 0, source := DataSource.SoilData, soil_temp_10_f := some 56,
    ambient_temp_f := some 75, humidity_percent := some 85 }

/-- A summary whose current reading is fully populated for the fungicide
rule but whose 7-day humidity average is absent. -/
def c9envNoHumAvg : EnvironmentalSummary :=
  { current := some c9reading, soil_temp_7day_avg_f := some 57 }

/-- A reading with every channel absent. -/
def bareReading : EnvironmentalReading :=
  { timestamp := 0, source := DataSource.SoilData }

/-- A summary whose current reading is present but empty, with the 7-day
soil average and a forecast present. -/
def c9envBareCurrent : EnvironmentalSummary :=
  { current := some bareReading, soil_temp_7day_avg_f := some 57,
    forecast := some c2forecast }

/-! ### Helper lemmas -/

/-- `filterMap id` keeps exactly the `some` entries. -/
theorem filterMap_id_length {α : Type} (l : List (Option α)) :
    (l.filterMap id).length = l.countP (fun o => o.isSome) := by
  induction l with
  | nil => rfl
  | cons x xs ih =>
    cases x with
    | none => simpa [List.filterMap_cons, List.countP_cons] using ih
    | some a => simp [List.filterMap_cons, List.countP_cons, ih]

/-- `filterMap id` is an order-preserving subsequence of the option list. -/
theorem filterMap_id_sublist {α : Type} (l : List (Option α)) :
    ((l.filterMap id).map some).Sublist l := by
  induction l with
  | nil => simp
  | cons x xs ih =>
    cases x with
    | none => exact (List.sublist_cons_of_sublist none ih)
    | some a => simpa [List.filterMap_cons] using List.Sublist.cons₂ (some a) ih

/-- The running total of the rain scan. -/
theorem rainScan_total (ps : List ForecastPoint) (t m : ℚ) (f : Option ℚ) :
    (rainScan ps t m f).1 = t + windowPrecipTotal ps := by
  induction ps generalizing t m f with
  | nil => simp [rainScan, windowPrecipTotal]
  | cons p ps ih => simp [rainScan, ih, windowPrecipTotal]; ring

/-- The running maximum of the rain scan. -/
theorem rainScan_max (ps : List ForecastPoint) (t m : ℚ) (f : Option ℚ) :
    (rainScan ps t m f).2.1 = (ps.map (fun p => p.precipitation_prob)).foldl max m := by
  induction ps generalizing t m f with
  | nil => simp [rainScan]
  | cons p ps ih =>
    simp only [rainScan, List.map_cons, List.foldl_cons, ih]
    congr 1
    by_cases h : p.precipitation_prob > m
    · simp [h, max_eq_right (le_of_lt h)]
    · simp [h, max_eq_left (le_of_not_lt h)]

/-- A rain scan that has already recorded a first rain time keeps it. -/
theorem rainScan_first_some (ps : List ForecastPoint) (t m a : ℚ) :
    (rainScan ps t m (some a)).2.2 = some a := by
  induction ps generalizing t m with
  | nil => rfl
  | cons p ps ih => simp [rainScan, ih]

/-- The first rain time of the scan started with no previously recorded
time. -/
theorem rainScan_first (ps : List ForecastPoint) (t m : ℚ) :
    (rainScan ps t m none).2.2 = windowFirstRain ps := by
  induction ps generalizing t m with
  | nil => rfl
  | cons p ps ih =>
    by_cases h : p.precipitation_mm > 1/10 ∨ p.precipitation_prob > 1/2
    · have hq : (decide (p.precipitation_mm > 1/10)
          || decide (p.precipitation_prob > 1/2)) = true := by
        simp only [Bool.or_eq_true, decide_eq_true_eq]
        exact h
      simp only [rainScan, Option.isNone_none, eq_self_iff_true, true_and]
      rw [if_pos h, rainScan_first_some]
      have hfind := List.find?_cons_of_pos (p := fun q : ForecastPoint =>
        decide (q.precipitation_mm > 1/10) || decide (q.precipitation_prob > 1/2)) ps hq
      simp only [windowFirstRain, hfind, Option.map_some']
    · have hq : ¬((decide (p.precipitation_mm > 1/10)
          || decide (p.precipitation_prob > 1/2)) = true) := by
        simp only [Bool.or_eq_true, decide_eq_true_eq]
        exact h
      simp only [rainScan, Option.isNone_none, eq_self_iff_true, true_and]
      rw [if_neg h, ih]
      have hfind := List.find?_cons_of_neg (p := fun q : ForecastPoint =>
        decide (q.precipitation_mm > 1/10) || decide (q.precipitation_prob > 1/2)) ps hq
      simp only [windowFirstRain, hfind]

/-- Bounding a `foldl max`. -/
theorem foldl_max_le_iff (l : List ℚ) (a c : ℚ) :
    l.foldl max a ≤ c ↔ a ≤ c ∧ ∀ b ∈ l, b ≤ c := by
  induction l generalizing a with
  | nil => simp
  | cons x xs ih =>
    simp only [List.foldl_cons, ih, max_le_iff, List.mem_cons]
    constructor
    · rintro ⟨⟨ha, hx⟩, hall⟩
      exact ⟨ha, fun b hb => hb.elim (fun h => h ▸ hx) (hall b)⟩
    · rintro ⟨ha, hall⟩
      exact ⟨⟨ha, hall x (Or.inl rfl)⟩, fun b hb => hall b (Or.inr hb)⟩

/-- The accumulator of the last-max fold is an element of the inputs. -/
theorem foldl_lastMax_mem {α : Type} (k : α → ℕ) (xs : List α) (x : α) :
    xs.foldl (fun b c => if k c ≥ k b then c else b) x ∈ x :: xs := by
  induction xs generalizing x with
  | nil => simp
  | cons y ys ih =>
    simp only [List.foldl_cons]
    by_cases hk : k y ≥ k x
    · rw [if_pos hk]
      rcases List.mem_cons.mp (ih y) with h | h
      · rw [h]; exact List.mem_cons_of_mem x (List.mem_cons_self y ys)
      · exact List.mem_cons_of_mem x (List.mem_cons_of_mem y h)
    · rw [if_neg hk]
      rcases List.mem_cons.mp (ih x) with h | h
      · rw [h]; exact List.mem_cons_self x (y :: ys)
      · exact List.mem_cons_of_mem x (List.mem_cons_of_mem y h)

/-- The accumulator of the last-max fold dominates all inputs. -/
theorem foldl_lastMax_ge {α : Type} (k : α → ℕ) (xs : List α) (x : α) :
    ∀ c ∈ x :: xs, k c ≤ k (xs.foldl (fun b c => if k c ≥ k b then c else b) x) := by
  induction xs generalizing x with
  | nil => simp
  | cons y ys ih =>
    intro c hc
    simp only [List.foldl_cons]
    by_cases hk : k y ≥ k x
    · rw [if_pos hk]
      rcases List.mem_cons.mp hc with h | h
      · have h1 : k c ≤ k y := by rw [h]; exact hk
        exact le_trans h1 (ih y y (List.mem_cons_self y ys))
      · exact ih y c h
    · rw [if_neg hk]
      rcases List.mem_cons.mp hc with h | h
      · rw [h]; exact ih x x (List.mem_cons_self x ys)
      · rcases List.mem_cons.mp h with h2 | h2
        · have h1 : k c ≤ k x := by rw [h2]; exact le_of_not_le hk
          exact le_trans h1 (ih x x (List.mem_cons_self x ys))
        · exact ih x c (List.mem_cons_of_mem x h2)

/-- `lastMaxByKey` returns an element of its list. -/
theorem lastMaxByKey_mem {α : Type} (k : α → ℕ) (l : List α) (m : α)
    (h : lastMaxByKey k l = some m) : m ∈ l := by
  cases l with
  | nil => simp [lastMaxByKey] at h
  | cons x xs =>
    simp only [lastMaxByKey, Option.some.injEq] at h
    exact h ▸ foldl_lastMax_mem k xs x

/-- `lastMaxByKey` returns a maximizer of the key. -/
theorem lastMaxByKey_ge {α : Type} (k : α → ℕ) (l : List α) (m : α)
    (h : lastMaxByKey k l = some m) : ∀ c ∈ l, k c ≤ k m := by
  cases l with
  | nil => simp [lastMaxByKey] at h
  | cons x xs =>
    simp only [lastMaxByKey, Option.some.injEq] at h
    exact h ▸ foldl_lastMax_ge k xs x

/-- Closed form of `rain_expected_within`: the scan's outcome in terms of the
window's total, tracked maximum, and first qualifying point. -/
theorem rain_expected_within_eq (f : WeatherForecast) (utcNow : ℚ)
    (hours : ℕ) (threshold_mm : ℚ) :
    f.rain_expected_within utcNow hours threshold_mm
      = if windowPrecipTotal (f.next_hours utcNow hours) ≥ threshold_mm
          ∨ windowMaxProb (f.next_hours utcNow hours) ≥ 1/2
        then some ⟨windowPrecipTotal (f.next_hours utcNow hours),
          windowMaxProb (f.next_hours utcNow hours),
          windowFirstRain (f.next_hours utcNow hours)⟩
        else none := by
  have ht : (rainScan (f.next_hours utcNow hours) 0 0 none).1
      = windowPrecipTotal (f.next_hours utcNow hours) := by
    rw [rainScan_total]; ring
  have hm : (rainScan (f.next_hours utcNow hours) 0 0 none).2.1
      = windowMaxProb (f.next_hours utcNow hours) := by
    rw [rainScan_max]; rfl
  have hf : (rainScan (f.next_hours utcNow hours) 0 0 none).2.2
      = windowFirstRain (f.next_hours utcNow hours) := rainScan_first _ _ _
  simp only [WeatherForecast.rain_expected_within, ht, hm, hf]

/-! ### Concrete evaluation lemmas for the fixtures

Rational arithmetic (`Rat.add`, `Rat.mul`, …) does not reduce in the kernel,
so concrete runs of the embedded code are established here once, by
simp/norm_num evaluation, and reused by the witnesses. -/

/-- The scenario forecast's 12-hour window holds exactly the 6-hour point. -/
theorem c2_next_hours_12 : c2forecast.next_hours 0 12 = [basePoint (6 * 3600) (8/10) 0] := by
  norm_num [WeatherForecast.next_hours, c2forecast, List.filter, basePoint]

/-- Concrete run: `rain_expected_within(12, 0.1)` on the scenario forecast. -/
theorem c2_rain12 : c2forecast.rain_expected_within 0 12 (1/10)
    = some ⟨0, 8/10, some (6 * 3600)⟩ := by
  rw [rain_expected_within_eq, c2_next_hours_12]
  norm_num [windowPrecipTotal, windowMaxProb, windowFirstRain, basePoint, List.find?]

/-- Concrete run: the rain-delay rule on the scenario summary fires the
Critical 12-hour recommendation. -/
theorem c2_rainDelay : rainDelayEvaluate marchClock c2env coolProfile []
    = some (rainDelayBuild Severity.Critical 12 0 (8/10)) := by
  simp only [rainDelayEvaluate, marchClock, c2env]
  rw [c2_rain12]
  norm_num

/-- The accumulation-only forecast's 12-hour window holds its single point. -/
theorem c10_next_hours_12 : c10forecast.next_hours 0 12 = [basePoint 3600 (1/2) (1/10)] := by
  norm_num [WeatherForecast.next_hours, c10forecast, List.filter, basePoint]

/-- Concrete run: `rain_expected_within(12, 0.1)` on the accumulation-only
forecast fires on accumulation alone, with no first-expected time. -/
theorem c10_rain12 : c10forecast.rain_expected_within 0 12 (1/10)
    = some ⟨1/10, 1/2, none⟩ := by
  rw [rain_expected_within_eq, c10_next_hours_12]
  norm_num [windowPrecipTotal, windowMaxProb, windowFirstRain, basePoint, List.find?]

/-- Every point of the accumulation-only window stays at or below both
first-rain thresholds. -/
theorem c10_all_small : ∀ p ∈ c10forecast.next_hours 0 12,
    p.precipitation_mm ≤ 1/10 ∧ p.precipitation_prob ≤ 1/2 := by
  rw [c10_next_hours_12]
  intro p hp
  rw [List.mem_singleton.mp hp]
  norm_num [basePoint]

/-- The boundary forecast's 12-hour window keeps the past point and the
point exactly at the cutoff. -/
theorem c5_next_hours_12 : c5forecast.next_hours 0 12
    = [basePoint (-3600) 0 0, basePoint (12 * 3600) 0 0] := by
  norm_num [WeatherForecast.next_hours, c5forecast, List.filter, basePoint]

/-- The boundary forecast's 12-day daily window holds its single day. -/
theorem c5_next_days_12 : c5forecast.next_days 0 12 = [c5day] := by
  norm_num [WeatherForecast.next_days, c5forecast, List.filter, c5day, dateNaive]

/-! ### Claim theorems -/

/-- C1: for every environmental summary, lawn profile and application
history, the engine's evaluate pass invokes every rule of its registry
exactly once (the result list is the pointwise `map` over the registry, in
registry order) and returns exactly the non-absent results in that order:
when exactly K of the N rules return a recommendation the output has length
K (the count of `some` results) and is the order-preserving subsequence of
the per-rule results. -/
theorem engine_pass_through (rules : List RuleFn) (clock : Clock)
    (env : EnvironmentalSummary) (profile : LawnProfile)
    (history : List Application) :
    engineEvaluate rules clock env profile history
        = (rules.map (fun rule => rule clock env profile history)).filterMap id
      ∧ (engineEvaluate rules clock env profile history).length
        = (rules.map (fun rule => rule clock env profile history)).countP
            (fun o => o.isSome)
      ∧ ((engineEvaluate rules clock env profile history).map some).Sublist
          (rules.map (fun rule => rule clock env profile history)) := by
  have h1 : engineEvaluate rules clock env profile history
      = (rules.map (fun rule => rule clock env profile history)).filterMap id := by
    rw [List.filterMap_map]; rfl
  refine ⟨h1, ?_, ?_⟩
  · rw [h1, filterMap_id_length]
  · rw [h1]; exact filterMap_id_sublist _

/-- C3: `rain_expected_within(hours, threshold_mm)` returns a rain summary
if and only if the precipitation accumulated over the scanned hourly window
reaches `threshold_mm` or the maximum tracked precipitation probability
reaches 0.5; the returned summary's `expected_mm` is the window's total
precipitation, its `max_probability` the window's maximum probability
(tracked from 0.0), and its `first_expected` the timestamp of the first
point with precipitation above 0.1 mm or probability above 0.5. -/
theorem rain_expected_within_spec (f : WeatherForecast) (utcNow : ℚ)
    (hours : ℕ) (threshold_mm : ℚ) :
    ((f.rain_expected_within utcNow hours threshold_mm).isSome
      ↔ (windowPrecipTotal (f.next_hours utcNow hours) ≥ threshold_mm
          ∨ windowMaxProb (f.next_hours utcNow hours) ≥ 1/2))
    ∧ ∀ r, f.rain_expected_within utcNow hours threshold_mm = some r →
        r.expected_mm = windowPrecipTotal (f.next_hours utcNow hours)
        ∧ r.max_probability = windowMaxProb (f.next_hours utcNow hours)
        ∧ r.first_expected = windowFirstRain (f.next_hours utcNow hours) := by
  rw [rain_expected_within_eq]
  by_cases hc : windowPrecipTotal (f.next_hours utcNow hours) ≥ threshold_mm
      ∨ windowMaxProb (f.next_hours utcNow hours) ≥ 1/2
  · rw [if_pos hc]
    refine ⟨by simpa using hc, ?_⟩
    intro r hr
    obtain rfl := (Option.some.injEq _ _).mp hr.symm
    exact ⟨rfl, rfl, rfl⟩
  · rw [if_neg hc]
    exact ⟨by simpa using hc, fun r hr => by cases hr⟩

/-- C3 witness: the contract instantiated at the concrete scenario
forecast. -/
theorem rain_expected_within_spec_witness :
    (0 : ℚ) = windowPrecipTotal (c2forecast.next_hours 0 12)
    ∧ (8/10 : ℚ) = windowMaxProb (c2forecast.next_hours 0 12)
    ∧ some ((6 : ℚ) * 3600) = windowFirstRain (c2forecast.next_hours 0 12) := by
  have h := (rain_expected_within_spec c2forecast 0 12 (1/10)).2
    ⟨0, 8/10, some (6 * 3600)⟩ c2_rain12
  exact ⟨h.1, h.2.1, h.2.2⟩

/-- C10: in a window where every point stays at or below the 0.1 mm
precipitation and 0.5 probability thresholds, a rain summary returned by
`rain_expected_within` (triggered purely by accumulation) carries no
`first_expected` time; conversely a returned summary whose `max_probability`
exceeds 0.5 always carries one. -/
theorem rain_first_expected_spec (f : WeatherForecast) (utcNow : ℚ)
    (hours : ℕ) (threshold_mm : ℚ) (r : RainForecast)
    (hr : f.rain_expected_within utcNow hours threshold_mm = some r) :
    ((∀ p ∈ f.next_hours utcNow hours,
        p.precipitation_mm ≤ 1/10 ∧ p.precipitation_prob ≤ 1/2) →
      r.first_expected = none)
    ∧ (r.max_probability > 1/2 → r.first_expected.isSome) := by
  rw [rain_expected_within_eq] at hr
  by_cases hc : windowPrecipTotal (f.next_hours utcNow hours) ≥ threshold_mm
      ∨ windowMaxProb (f.next_hours utcNow hours) ≥ 1/2
  swap
  · rw [if_neg hc] at hr; cases hr
  rw [if_pos hc] at hr
  obtain rfl := (Option.some.injEq _ _).mp hr.symm
  constructor
  · intro hall
    show windowFirstRain (f.next_hours utcNow hours) = none
    simp only [windowFirstRain, Option.map_eq_none', List.find?_eq_none]
    intro p hp
    simp only [Bool.or_eq_true, decide_eq_true_eq, not_or, not_lt]
    exact ⟨(hall p hp).1, (hall p hp).2⟩
  · intro hmax
    show (windowFirstRain (f.next_hours utcNow hours)).isSome
    have hex : ∃ p ∈ f.next_hours utcNow hours, p.precipitation_prob > 1/2 := by
      by_contra hno
      push_neg at hno
      have hle : windowMaxProb (f.next_hours utcNow hours) ≤ 1/2 := by
        unfold windowMaxProb
        rw [foldl_max_le_iff]
        refine ⟨by norm_num, ?_⟩
        intro b hb
        obtain ⟨p, hp, rfl⟩ := List.mem_map.mp hb
        exact hno p hp
      exact absurd hmax (not_lt.mpr hle)
    obtain ⟨p, hp, hpgt⟩ := hex
    simp only [windowFirstRain, Option.isSome_map']
    rw [Option.isSome_iff_ne_none, Ne, List.find?_eq_none]
    push_neg
    refine ⟨p, hp, ?_⟩
    simp only [Bool.or_eq_true, decide_eq_true_eq]
    exact Or.inr hpgt

/-- C10 witness: both directions instantiated at concrete forecasts — an
accumulation-only window yields no first-expected time, a high-probability
window yields one. -/
theorem rain_first_expected_spec_witness :
    ((⟨1/10, 1/2, none⟩ : RainForecast).first_expected = none)
    ∧ ((⟨0, 8/10, some (6 * 3600)⟩ : RainForecast).first_expected.isSome) := by
  have hA := (rain_first_expected_spec c10forecast 0 12 (1/10)
    ⟨1/10, 1/2, none⟩ c10_rain12).1 c10_all_small
  have hB := (rain_first_expected_spec c2forecast 0 12 (1/10)
    ⟨0, 8/10, some (6 * 3600)⟩ c2_rain12).2 (by norm_num)
  exact ⟨hA, hB⟩

/-- C5 counterexample: the hourly filter has no lower time bound and keeps
the point exactly at the cutoff, so the window is not `[now, now+n)`: the
forecast `c5forecast` contains a point one hour in the past that
`next_hours(12)` returns, along with the point exactly at `now + 12h`. -/
theorem next_window_counterexample :
    ¬ (∀ p ∈ c5forecast.next_hours 0 12,
        (0 : ℚ) ≤ p.timestamp ∧ p.timestamp < 0 + (12 : ℚ) * 3600) := by
  intro hall
  have hpast := hall (basePoint (-3600) 0 0) (by rw [c5_next_hours_12]; simp)
  have hcut := hall (basePoint (12 * 3600) 0 0) (by rw [c5_next_hours_12]; simp)
  have h1 : ¬((0 : ℚ) ≤ (basePoint (-3600) 0 0).timestamp) := by
    norm_num [basePoint]
  exact h1 hpast.1

/-- C5 (amended): `next_hours(n)` / `next_days(n)` return the
order-preserving filtered subsequence of exactly those points whose
timestamp is at most `now + n` hours (resp. whose date is at most
`today + n` days): there is no lower bound, past points are kept, and the
point exactly at the cutoff is included. -/
theorem next_window_spec (f : WeatherForecast) (utcNow : ℚ) (n : ℕ) :
    (f.next_hours utcNow n).Sublist f.hourly
    ∧ (∀ p ∈ f.next_hours utcNow n, p.timestamp ≤ utcNow + (n : ℚ) * 3600)
    ∧ (∀ p ∈ f.hourly, p.timestamp ≤ utcNow + (n : ℚ) * 3600 →
        p ∈ f.next_hours utcNow n)
    ∧ (f.next_days utcNow n).Sublist f.daily_summary
    ∧ (∀ d ∈ f.next_days utcNow n, d.date ≤ dateNaive utcNow + (n : ℤ))
    ∧ (∀ d ∈ f.daily_summary, d.date ≤ dateNaive utcNow + (n : ℤ) →
        d ∈ f.next_days utcNow n) := by
  refine ⟨List.filter_sublist _, ?_, ?_, List.filter_sublist _, ?_, ?_⟩
  · intro p hp
    have := (List.mem_filter.mp hp).2
    simpa using this
  · intro p hp hle
    exact List.mem_filter.mpr ⟨hp, by simpa using hle⟩
  · intro d hd
    have := (List.mem_filter.mp hd).2
    simpa using this
  · intro d hd hle
    exact List.mem_filter.mpr ⟨hd, by simpa using hle⟩

/-- C5 witness: the amended window contract instantiated at `c5forecast`:
the past point is a member of the 12-hour window and satisfies the upper
bound, and the day at date 1 is a member of the 12-day daily window. -/
theorem next_window_spec_witness :
    basePoint (-3600) 0 0 ∈ c5forecast.next_hours 0 12
    ∧ (basePoint (-3600) 0 0).timestamp ≤ 0 + (12 : ℚ) * 3600
    ∧ c5day ∈ c5forecast.next_days 0 12
    ∧ c5day.date ≤ dateNaive 0 + (12 : ℤ) := by
  have h := next_window_spec c5forecast 0 12
  have hmemH : basePoint (-3600) 0 0 ∈ c5forecast.next_hours 0 12 :=
    h.2.2.1 (basePoint (-3600) 0 0) (by simp [c5forecast]) (by norm_num [basePoint])
  have hmemD : c5day ∈ c5forecast.next_days 0 12 :=
    h.2.2.2.2.2 c5day (by simp [c5forecast]) (by norm_num [c5day, dateNaive])
  exact ⟨hmemH, h.2.1 _ hmemH, hmemD, h.2.2.2.2.1 c5day hmemD⟩

/-- C2: the rain-delay rule checks its forward horizons in increasing order
(12h, then 24h, then 48h) and returns the recommendation of the first
horizon whose probability/amount threshold is met, never considering a
longer horizon once a shorter one matches; in particular, on the scenario
forecast with rain probability 0.8 at 6 hours and 0.2 at 30 hours it
returns the Critical 12-hour recommendation and no lower-severity one. -/
theorem rain_delay_horizon_short_circuit :
    (∀ (clock : Clock) (env : EnvironmentalSummary) (profile : LawnProfile)
        (history : List Application) (f : WeatherForecast) (r : RainForecast),
      env.forecast = some f →
      f.rain_expected_within clock.utcNow 12 (1/10) = some r →
      (r.max_probability ≥ 7/10 ∨ r.expected_mm ≥ 5/2) →
      rainDelayEvaluate clock env profile history
        = some (rainDelayBuild Severity.Critical 12 r.expected_mm r.max_probability))
    ∧ (∀ (clock : Clock) (env : EnvironmentalSummary) (profile : LawnProfile)
        (history : List Application) (f : WeatherForecast) (r : RainForecast),
      env.forecast = some f →
      (∀ r12, f.rain_expected_within clock.utcNow 12 (1/10) = some r12 →
        ¬(r12.max_probability ≥ 7/10 ∨ r12.expected_mm ≥ 5/2)) →
      f.rain_expected_within clock.utcNow 24 (1/10) = some r →
      (r.max_probability ≥ 1/2 ∨ r.expected_mm ≥ 5/2) →
      rainDelayEvaluate clock env profile history
        = some (rainDelayBuild Severity.Warning 24 r.expected_mm r.max_probability))
    ∧ (∀ (clock : Clock) (env : EnvironmentalSummary) (profile : LawnProfile)
        (history : List Application) (f : WeatherForecast) (r : RainForecast),
      env.forecast = some f →
      (∀ r12, f.rain_expected_within clock.utcNow 12 (1/10) = some r12 →
        ¬(r12.max_probability ≥ 7/10 ∨ r12.expected_mm ≥ 5/2)) →
      (∀ r24, f.rain_expected_within clock.utcNow 24 (1/10) = some r24 →
        ¬(r24.max_probability ≥ 1/2 ∨ r24.expected_mm ≥ 5/2)) →
      f.rain_expected_within clock.utcNow 48 (1/10) = some r →
      (r.max_probability ≥ 3/10 ∨ r.expected_mm ≥ 5) →
      rainDelayEvaluate clock env profile history
        = some (rainDelayBuild Severity.Advisory 48 r.expected_mm r.max_probability))
    ∧ rainDelayEvaluate marchClock c2env coolProfile []
        = some (rainDelayBuild Severity.Critical 12 0 (8/10))
    ∧ (rainDelayBuild Severity.Critical 12 0 (8/10)).severity = Severity.Critical := by
  refine ⟨?_, ?_, ?_, c2_rainDelay, rfl⟩
  · intro clock env profile history f r hf h12 hcond
    simp only [rainDelayEvaluate, hf]
    rw [h12]
    dsimp only
    rw [if_pos hcond]
  · intro clock env profile history f r hf h12no h24 hcond
    simp only [rainDelayEvaluate, hf]
    cases h12c : f.rain_expected_within clock.utcNow 12 (1/10) with
    | none =>
      dsimp only
      rw [h24]
      dsimp only
      rw [if_pos hcond]
    | some r12 =>
      dsimp only
      rw [if_neg (h12no r12 h12c)]
      dsimp only
      rw [h24]
      dsimp only
      rw [if_pos hcond]
  · intro clock env profile history f r hf h12no h24no h48 hcond
    simp only [rainDelayEvaluate, hf]
    have step24 :
        (match
          match f.rain_expected_within clock.utcNow 24 (1/10) with
          | some rain24 =>
            if rain24.max_probability ≥ 1/2 ∨ rain24.expected_mm ≥ 5/2 then
              some (rainDelayBuild Severity.Warning 24 rain24.expected_mm rain24.max_probability)
            else none
          | none => none with
        | some rec => some rec
        | none =>
          match f.rain_expected_within clock.utcNow 48 (1/10) with
          | some rain48 =>
            if rain48.max_probability ≥ 3/10 ∨ rain48.expected_mm ≥ 5 then
              some (rainDelayBuild Severity.Advisory 48 rain48.expected_mm rain48.max_probability)
            else none
          | none => none)
        = some (rainDelayBuild Severity.Advisory 48 r.expected_mm r.max_probability) := by
      cases h24c : f.rain_expected_within clock.utcNow 24 (1/10) with
      | none =>
        dsimp only
        rw [h48]
        dsimp only
        rw [if_pos hcond]
      | some r24 =>
        dsimp only
        rw [if_neg (h24no r24 h24c)]
        dsimp only
        rw [h48]
        dsimp only
        rw [if_pos hcond]
    cases h12c : f.rain_expected_within clock.utcNow 12 (1/10) with
    | none =>
      dsimp only
      exact step24
    | some r12 =>
      dsimp only
      rw [if_neg (h12no r12 h12c)]
      dsimp only
      exact step24

/-- C2 witness: the 12-hour short-circuit applied at the scenario
forecast. -/
theorem rain_delay_horizon_witness :
    rainDelayEvaluate marchClock c2env coolProfile []
      = some (rainDelayBuild Severity.Critical 12 0 (8/10)) :=
  rain_delay_horizon_short_circuit.1 marchClock c2env coolProfile [] c2forecast
    ⟨0, 8/10, some (6 * 3600)⟩ rfl c2_rain12 (by norm_num)

/-- C7: for every environmental summary and cool-season profile, if the
history already contains a pre-emergent application dated within the current
year, the pre-emergent rule returns no recommendation, whatever the other
conditions. -/
theorem pre_emergent_duplicate_suppression (clock : Clock)
    (env : EnvironmentalSummary) (profile : LawnProfile)
    (history : List Application) (app : Application)
    (hcool : profile.grass_type.is_cool_season = true)
    (happ : app ∈ history)
    (htype : app.application_type = ApplicationType.PreEmergent)
    (hyear : yearOfDays app.application_date = clock.localYear) :
    preEmergentEvaluate clock env profile history = none := by
  have hany : (history.any (fun a =>
      a.application_type == ApplicationType.PreEmergent
        && yearOfDays a.application_date == clock.localYear)) = true := by
    refine List.any_eq_true.mpr ⟨app, happ, ?_⟩
    simp [htype, hyear]
  by_cases hm : 2 ≤ clock.localMonth ∧ clock.localMonth ≤ 5
  · simp [preEmergentEvaluate, hcool, hm, hany]
  · simp [preEmergentEvaluate, hcool, hm]

/-- C7 witness: duplicate suppression at the concrete March scenario with a
pre-emergent application logged in February of the same year. -/
theorem pre_emergent_duplicate_suppression_witness :
    preEmergentEvaluate marchClock c8env coolProfile [pastApp] = none :=
  pre_emergent_duplicate_suppression marchClock c8env coolProfile [pastApp] pastApp
    rfl (List.mem_singleton.mpr rfl) rfl (by decide)

/-- The newer 24-window of the boundary readings. -/
theorem c4b_recent : (c4boundaryReadings.take 24).filterMap (fun r => r.soil_temp_10_f)
    = List.replicate 24 (52 : ℚ) := by
  rw [c4boundaryReadings, List.take_left' (List.length_replicate 24 _)]
  exact List.filterMap_replicate_of_some rfl

/-- The older 24-window of the boundary readings. -/
theorem c4b_previous : ((c4boundaryReadings.drop 24).take 24).filterMap (fun r => r.soil_temp_10_f)
    = List.replicate 24 (50 : ℚ) := by
  rw [c4boundaryReadings, List.drop_left' (List.length_replicate 24 _)]
  rw [List.take_replicate]
  norm_num
  exact List.filterMap_replicate_of_some rfl

/-- The newer 24-window of the rising readings. -/
theorem c4r_recent : (c4risingReadings.take 24).filterMap (fun r => r.soil_temp_10_f)
    = List.replicate 24 (53 : ℚ) := by
  rw [c4risingReadings, List.take_left' (List.length_replicate 24 _)]
  exact List.filterMap_replicate_of_some rfl

/-- The older 24-window of the rising readings. -/
theorem c4r_previous : ((c4risingReadings.drop 24).take 24).filterMap (fun r => r.soil_temp_10_f)
    = List.replicate 24 (50 : ℚ) := by
  rw [c4risingReadings, List.drop_left' (List.length_replicate 24 _)]
  rw [List.take_replicate]
  norm_num
  exact List.filterMap_replicate_of_some rfl

/-- The boundary readings count exactly 48 samples. -/
theorem c4b_length : c4boundaryReadings.length = 48 := by
  simp [c4boundaryReadings]

/-- Case analysis of `calculate_trend`: Unknown under 48 samples or when a
window holds no 10 cm value, otherwise classified by the strict 2-degree
thresholds on the window-average difference. -/
theorem calculate_trend_cases (readings : List EnvironmentalReading) :
    (readings.length < 48 → calculate_trend readings = Trend.Unknown)
    ∧ (48 ≤ readings.length →
        ((readings.take 24).filterMap (fun r => r.soil_temp_10_f) = [] ∨
            ((readings.drop 24).take 24).filterMap (fun r => r.soil_temp_10_f) = [] →
          calculate_trend readings = Trend.Unknown)
        ∧ (∀ d : ℚ,
            (readings.take 24).filterMap (fun r => r.soil_temp_10_f) ≠ [] →
            ((readings.drop 24).take 24).filterMap (fun r => r.soil_temp_10_f) ≠ [] →
            d = ((readings.take 24).filterMap (fun r => r.soil_temp_10_f)).sum
                  / (((readings.take 24).filterMap (fun r => r.soil_temp_10_f)).length : ℚ)
                - (((readings.drop 24).take 24).filterMap (fun r => r.soil_temp_10_f)).sum
                  / ((((readings.drop 24).take 24).filterMap (fun r => r.soil_temp_10_f)).length : ℚ) →
            calculate_trend readings
              = (if d > 2 then Trend.Rising
                else if d < -2 then Trend.Falling
                else Trend.Stable))) := by
  refine ⟨fun h => ?_, fun h48 => ⟨fun hemp => ?_, fun d h1 h2 hd => ?_⟩⟩
  · simp only [calculate_trend]
    rw [if_pos h]
  · simp only [calculate_trend]
    rw [if_neg (not_lt.mpr h48), if_pos ?_]
    rcases hemp with h | h <;> simp [h]
  · simp only [calculate_trend]
    rw [if_neg (not_lt.mpr h48),
      if_neg (by simp [List.isEmpty_iff, h1, h2]), hd]

/-- C4 (amended): with fewer than 48 samples the trend is Unknown; with at
least 48 samples (newest first, both 24-windows carrying data), a strictly
more than 2 degree increase of the newer window average over the older one
yields Rising, a strictly more than 2 degree decrease yields Falling, and
otherwise (including a difference of exactly 2 degrees) Stable; Unknown also
results when either window has no present 10 cm value. -/
theorem calculate_trend_spec (readings : List EnvironmentalReading) :
    (readings.length < 48 → calculate_trend readings = Trend.Unknown)
    ∧ (48 ≤ readings.length →
        ((readings.take 24).filterMap (fun r => r.soil_temp_10_f) = [] ∨
            ((readings.drop 24).take 24).filterMap (fun r => r.soil_temp_10_f) = [] →
          calculate_trend readings = Trend.Unknown)
        ∧ (∀ d : ℚ,
            (readings.take 24).filterMap (fun r => r.soil_temp_10_f) ≠ [] →
            ((readings.drop 24).take 24).filterMap (fun r => r.soil_temp_10_f) ≠ [] →
            d = ((readings.take 24).filterMap (fun r => r.soil_temp_10_f)).sum
                  / (((readings.take 24).filterMap (fun r => r.soil_temp_10_f)).length : ℚ)
                - (((readings.drop 24).take 24).filterMap (fun r => r.soil_temp_10_f)).sum
                  / ((((readings.drop 24).take 24).filterMap (fun r => r.soil_temp_10_f)).length : ℚ) →
            calculate_trend readings
              = (if d > 2 then Trend.Rising
                else if d < -2 then Trend.Falling
                else Trend.Stable))) :=
  calculate_trend_cases readings

/-- C4 counterexample: 48 readings whose newer window average exceeds the
older by exactly 2 degrees — the claim demands Rising, the code returns
Stable. -/
theorem calculate_trend_boundary_counterexample :
    ((c4boundaryReadings.take 24).filterMap (fun r => r.soil_temp_10_f)).sum
        / (((c4boundaryReadings.take 24).filterMap (fun r => r.soil_temp_10_f)).length : ℚ)
      - (((c4boundaryReadings.drop 24).take 24).filterMap (fun r => r.soil_temp_10_f)).sum
        / ((((c4boundaryReadings.drop 24).take 24).filterMap (fun r => r.soil_temp_10_f)).length : ℚ)
      = 2
    ∧ calculate_trend c4boundaryReadings = Trend.Stable := by
  have hdiff : ((c4boundaryReadings.take 24).filterMap (fun r => r.soil_temp_10_f)).sum
        / (((c4boundaryReadings.take 24).filterMap (fun r => r.soil_temp_10_f)).length : ℚ)
      - (((c4boundaryReadings.drop 24).take 24).filterMap (fun r => r.soil_temp_10_f)).sum
        / ((((c4boundaryReadings.drop 24).take 24).filterMap (fun r => r.soil_temp_10_f)).length : ℚ)
      = 2 := by
    rw [c4b_recent, c4b_previous]
    norm_num [List.sum_replicate, nsmul_eq_mul]
  refine ⟨hdiff, ?_⟩
  have h := ((calculate_trend_cases c4boundaryReadings).2 (by rw [c4b_length])).2
    2 (by rw [c4b_recent]; simp) (by rw [c4b_previous]; simp) hdiff.symm
  rw [h]
  norm_num

/-- C4 witness: the amended classification applied to a concrete rising
series (difference 3 degrees). -/
theorem calculate_trend_spec_witness :
    calculate_trend c4risingReadings = Trend.Rising := by
  have hdiff : ((c4risingReadings.take 24).filterMap (fun r => r.soil_temp_10_f)).sum
        / (((c4risingReadings.take 24).filterMap (fun r => r.soil_temp_10_f)).length : ℚ)
      - (((c4risingReadings.drop 24).take 24).filterMap (fun r => r.soil_temp_10_f)).sum
        / ((((c4risingReadings.drop 24).take 24).filterMap (fun r => r.soil_temp_10_f)).length : ℚ)
      = 3 := by
    rw [c4r_recent, c4r_previous]
    norm_num [List.sum_replicate, nsmul_eq_mul]
  have h := ((calculate_trend_spec c4risingReadings).2 (by simp [c4risingReadings])).2
    3 (by rw [c4r_recent]; simp) (by rw [c4r_previous]; simp) hdiff.symm
  rw [h]
  norm_num

/-- C8 counterexample: with a cool-season profile, March, a 7-day soil
average of 57°F and no history, but no current reading, the pre-emergent
rule returns no recommendation — the claim asserts a Warning recommendation
for every such evaluation. -/
theorem pre_emergent_missing_current_counterexample :
    coolProfile.grass_type.is_cool_season = true
    ∧ marchClock.localMonth = 3
    ∧ c8envNoCurrent.soil_temp_7day_avg_f = some 57
    ∧ preEmergentEvaluate marchClock c8envNoCurrent coolProfile [] = none := by
  refine ⟨rfl, by decide, rfl, by decide⟩

/-- C8 (amended): for every evaluation with a cool-season profile, a 7-day
average soil temperature of 57°F, no prior pre-emergent application this
year, current month March, and a current reading with a present 10 cm soil
temperature, the pre-emergent rule returns a recommendation with severity
Warning carrying the data point "7-Day Avg Soil Temp" = "57.0°F". -/
theorem pre_emergent_march_warning (clock : Clock) (env : EnvironmentalSummary)
    (profile : LawnProfile) (history : List Application)
    (cur : EnvironmentalReading) (t : ℚ)
    (hcool : profile.grass_type.is_cool_season = true)
    (hmonth : clock.localMonth = 3)
    (havg : env.soil_temp_7day_avg_f = some 57)
    (hcur : env.current = some cur)
    (hct : cur.soil_temp_10_f = some t)
    (hnone : ∀ app ∈ history, app.application_type = ApplicationType.PreEmergent →
      yearOfDays app.application_date ≠ clock.localYear) :
    ∃ rec, preEmergentEvaluate clock env profile history = some rec
      ∧ rec.severity = Severity.Warning
      ∧ (⟨"7-Day Avg Soil Temp", "57.0°F", "NOAA USCRN"⟩ : DataPoint) ∈ rec.data_points := by
  have hany : (history.any (fun a =>
      a.application_type == ApplicationType.PreEmergent
        && yearOfDays a.application_date == clock.localYear)) = false := by
    rw [List.any_eq_false]
    intro a ha
    simp only [Bool.and_eq_true, beq_iff_eq, not_and]
    exact fun h1 h2 => hnone a ha h1 h2
  simp only [preEmergentEvaluate, hcool, hmonth, havg, hcur, hct, hany,
    Bool.not_true, Bool.false_eq_true, if_false]
  rw [if_neg (by decide : ¬¬((2:ℤ) ≤ 3 ∧ (3:ℤ) ≤ 5))]
  rw [if_pos (by decide : (50:ℚ) ≤ 57 ∧ (57:ℚ) ≤ 60)]
  rw [if_pos (by decide : (57:ℚ) ≥ 55)]
  refine ⟨_, rfl, rfl, ?_⟩
  simp only [Recommendation.with_action, Recommendation.with_data_point,
    Recommendation.with_explanation, Recommendation.new, List.nil_append,
    List.cons_append, List.append_nil]
  have h570 : fmtFixed 57 1 ++ "°F" = "57.0°F" := by decide
  rw [h570]
  exact List.mem_cons_self _ _

/-- C8 witness: the amended scenario at the concrete March clock and summary
with a present current reading. -/
theorem pre_emergent_march_warning_witness :
    ∃ rec, preEmergentEvaluate marchClock c8env coolProfile [] = some rec
      ∧ rec.severity = Severity.Warning
      ∧ (⟨"7-Day Avg Soil Temp", "57.0°F", "NOAA USCRN"⟩ : DataPoint) ∈ rec.data_points :=
  pre_emergent_march_warning marchClock c8env coolProfile [] c8reading 56
    rfl (by decide) rfl rfl rfl (by simp)

/-- The date field of a daily aggregate is its group key. -/
theorem aggregate_day_date (d : ℤ) (pts : List ForecastPoint)
    (c : List WeatherCondition) : (aggregate_day d pts c).date = d := rfl

/-- The dominant condition of a daily aggregate is the last maximal entry
of the frequency map's iteration order. -/
theorem aggregate_day_dominant (d : ℤ) (pts : List ForecastPoint)
    (c : List WeatherCondition) :
    (aggregate_day d pts c).dominant_condition
      = (lastMaxByKey (condCount pts) c).getD WeatherCondition.Clear := rfl

/-- The dates of the daily aggregates are the sorted distinct UTC dates of
the hourly series. -/
theorem aggregate_daily_dates (hourly : List ForecastPoint)
    (o : ℤ → List WeatherCondition) :
    (aggregate_daily hourly o).map (fun df => df.date)
      = List.insertionSort (· ≤ ·) ((hourly.map (fun p => dateNaive p.timestamp)).dedup) := by
  simp only [aggregate_daily, List.map_map]
  have hco : ((fun df => df.date)
      ∘ (fun d => aggregate_day d (dayGroup hourly d) (o d))) = id :=
    funext fun d => rfl
  rw [hco, List.map_id]

/-- Both tied points fall on UTC date 0. -/
theorem c6_dates_map : c6points.map (fun p => dateNaive p.timestamp) = [0, 0] := by
  norm_num [c6points, basePoint, dateNaive]

/-- The day-group of date 0 is the whole tied series. -/
theorem c6_dayGroup : dayGroup c6points 0 = c6points := by
  norm_num [dayGroup, c6points, List.filter, basePoint, dateNaive]

/-- Aggregating the tied series yields one day built from the whole
series. -/
theorem c6_aggregate (o : ℤ → List WeatherCondition) :
    aggregate_daily c6points o = [aggregate_day 0 c6points (o 0)] := by
  simp only [aggregate_daily]
  rw [c6_dates_map, show ([0, 0] : List ℤ).dedup = [0] by decide]
  simp only [List.insertionSort, List.orderedInsert, List.map_cons, List.map_nil]
  rw [c6_dayGroup]

/-- Under iteration order Clear-then-Rain, the tie goes to Rain (last
maximal). -/
theorem c6_dominantA :
    (aggregate_day 0 c6points (c6orderA 0)).dominant_condition = WeatherCondition.Rain := by
  decide

/-- Under iteration order Rain-then-Clear, the tie goes to Clear (last
maximal). -/
theorem c6_dominantB :
    (aggregate_day 0 c6points (c6orderB 0)).dominant_condition = WeatherCondition.Clear := by
  decide

/-- C6 counterexample: both `c6orderA` and `c6orderB` are legitimate
iteration orders of the same tied condition-frequency map (no-duplicate
enumerations of the day's condition set), yet aggregation returns dominant
condition Rain under one and Clear under the other — the most-frequent
condition under a tie is decided by the unordered map's iteration order, not
deterministically by encounter order of the hourly series. -/
theorem aggregate_daily_tie_counterexample :
    ((c6orderA 0).Nodup
      ∧ ∀ c : WeatherCondition, c ∈ c6orderA 0
          ↔ c ∈ (dayGroup c6points 0).map (fun p => p.weather_condition))
    ∧ ((c6orderB 0).Nodup
      ∧ ∀ c : WeatherCondition, c ∈ c6orderB 0
          ↔ c ∈ (dayGroup c6points 0).map (fun p => p.weather_condition))
    ∧ (aggregate_daily c6points c6orderA).map (fun d => d.dominant_condition)
        = [WeatherCondition.Rain]
    ∧ (aggregate_daily c6points c6orderB).map (fun d => d.dominant_condition)
        = [WeatherCondition.Clear] := by
  refine ⟨⟨by decide, ?_⟩, ⟨by decide, ?_⟩, ?_, ?_⟩
  · rw [c6_dayGroup]; decide
  · rw [c6_dayGroup]; decide
  · rw [c6_aggregate]
    simp only [List.map_cons, List.map_nil, c6_dominantA]
  · rw [c6_aggregate]
    simp only [List.map_cons, List.map_nil, c6_dominantB]

/-- C6 (amended): daily aggregation yields a list sorted ascending by date
with distinct dates; every per-day numeric aggregate (max/min temperature,
mean humidity, summed precipitation, max precipitation probability, mean
wind, max gust) is a deterministic function of the hourly series —
independent of the condition map's iteration order — and the dominant
condition is a most-frequent condition of that day's points, with ties
broken by the unordered frequency map's iteration order (last maximal in
iteration order) rather than by encounter order. -/
theorem aggregate_daily_spec (hourly : List ForecastPoint)
    (o1 o2 : ℤ → List WeatherCondition)
    (hv1 : ∀ d ∈ (hourly.map (fun p => dateNaive p.timestamp)).dedup,
      (o1 d).Nodup
        ∧ ∀ c, c ∈ o1 d ↔ c ∈ (dayGroup hourly d).map (fun p => p.weather_condition)) :
    List.Sorted (· ≤ ·) ((aggregate_daily hourly o1).map (fun df => df.date))
    ∧ ((aggregate_daily hourly o1).map (fun df => df.date)).Nodup
    ∧ (aggregate_daily hourly o1).map dailyNumeric
        = (aggregate_daily hourly o2).map dailyNumeric
    ∧ ∀ df ∈ aggregate_daily hourly o1,
        ∀ c ∈ (dayGroup hourly df.date).map (fun p => p.weather_condition),
          condCount (dayGroup hourly df.date) c
            ≤ condCount (dayGroup hourly df.date) df.dominant_condition := by
  refine ⟨?_, ?_, ?_, ?_⟩
  · rw [aggregate_daily_dates]
    exact List.sorted_insertionSort _ _
  · rw [aggregate_daily_dates]
    exact ((List.perm_insertionSort _ _).nodup_iff).mpr (List.nodup_dedup _)
  · simp only [aggregate_daily, List.map_map]
    apply List.map_congr_left
    intro d _
    rfl
  · intro df hdf c hc
    simp only [aggregate_daily, List.mem_map] at hdf
    obtain ⟨d, hd, rfl⟩ := hdf
    rw [aggregate_day_date] at hc
    have hd' : d ∈ (hourly.map (fun p => dateNaive p.timestamp)).dedup :=
      ((List.perm_insertionSort _ _).mem_iff).mp hd
    obtain ⟨hnd, hiff⟩ := hv1 d hd'
    have hco : c ∈ o1 d := (hiff c).mpr hc
    rw [aggregate_day_date, aggregate_day_dominant]
    cases ho : o1 d with
    | nil => rw [ho] at hco; cases hco
    | cons x xs =>
      rw [ho] at hco
      have hlast : lastMaxByKey (condCount (dayGroup hourly d)) (x :: xs)
          = some (xs.foldl (fun b c2 =>
              if condCount (dayGroup hourly d) c2 ≥ condCount (dayGroup hourly d) b
              then c2 else b) x) := rfl
      rw [hlast, Option.getD_some]
      exact lastMaxByKey_ge (condCount (dayGroup hourly d)) (x :: xs) _ hlast c hco

/-- C6 witness: the amended aggregation contract at the concrete tied
series, with a concrete valid iteration order. -/
theorem aggregate_daily_spec_witness :
    List.Sorted (· ≤ ·) ((aggregate_daily c6points c6orderA).map (fun df => df.date))
    ∧ (aggregate_daily c6points c6orderA).map dailyNumeric
        = (aggregate_daily c6points c6orderB).map dailyNumeric := by
  have hv : ∀ d ∈ (c6points.map (fun p => dateNaive p.timestamp)).dedup,
      (c6orderA d).Nodup
        ∧ ∀ c, c ∈ c6orderA d ↔ c ∈ (dayGroup c6points d).map (fun p => p.weather_condition) := by
    intro d hd
    rw [c6_dates_map] at hd
    have hd0 : d = 0 := by simpa using hd
    subst hd0
    refine ⟨by decide, ?_⟩
    rw [c6_dayGroup]
    decide
  have h := aggregate_daily_spec c6points c6orderA c6orderB hv
  exact ⟨h.1, h.2.2.1⟩

/-- The pre-emergent rule returns no recommendation on the empty summary. -/
theorem preEmergent_none_on_empty (clock : Clock) (profile : LawnProfile)
    (history : List Application) :
    preEmergentEvaluate clock emptySummary profile history = none := by
  simp [preEmergentEvaluate, emptySummary]

/-- The spring-nitrogen rule returns no recommendation on the empty summary. -/
theorem springNitrogen_none_on_empty (clock : Clock) (profile : LawnProfile)
    (history : List Application) :
    springNitrogenEvaluate clock emptySummary profile history = none := by
  simp [springNitrogenEvaluate, emptySummary]

/-- The grub-control rule returns no recommendation on the empty summary. -/
theorem grubControl_none_on_empty (clock : Clock) (profile : LawnProfile)
    (history : List Application) :
    grubControlEvaluate clock emptySummary profile history = none := by
  simp [grubControlEvaluate, emptySummary, fromYmdOpt, daysInMonth]

/-- The fertilizer stress-block rule returns no recommendation on the empty summary. -/
theorem fertilizer_none_on_empty (clock : Clock) (profile : LawnProfile)
    (history : List Application) :
    fertilizerEvaluate clock emptySummary profile history = none := by
  simp [fertilizerEvaluate, emptySummary]

/-- The fungicide rule returns no recommendation on the empty summary. -/
theorem fungicide_none_on_empty (clock : Clock) (profile : LawnProfile)
    (history : List Application) :
    fungicideEvaluate clock emptySummary profile history = none := by
  simp [fungicideEvaluate, emptySummary]

/-- The fall-overseeding rule returns no recommendation on the empty summary. -/
theorem fallOverseeding_none_on_empty (clock : Clock) (profile : LawnProfile)
    (history : List Application) :
    fallOverseedingEvaluate clock emptySummary profile history = none := by
  simp [fallOverseedingEvaluate, emptySummary, fromYmdOpt, daysInMonth]

/-- The fall-fertilization rule returns no recommendation on the empty summary. -/
theorem fallFertilization_none_on_empty (clock : Clock) (profile : LawnProfile)
    (history : List Application) :
    fallFertilizationEvaluate clock emptySummary profile history = none := by
  simp [fallFertilizationEvaluate, emptySummary, fromYmdOpt, daysInMonth]

/-- The rain-delay rule returns no recommendation on the empty summary. -/
theorem rainDelay_none_on_empty (clock : Clock) (profile : LawnProfile)
    (history : List Application) :
    rainDelayEvaluate clock emptySummary profile history = none := by
  simp [rainDelayEvaluate, emptySummary]

/-- The irrigation-forecast rule returns no recommendation on the empty summary. -/
theorem irrigationForecast_none_on_empty (clock : Clock) (profile : LawnProfile)
    (history : List Application) :
    irrigationForecastEvaluate clock emptySummary profile history = none := by
  simp [irrigationForecastEvaluate, emptySummary]

/-- The heat-stress rule returns no recommendation on the empty summary. -/
theorem heatStress_none_on_empty (clock : Clock) (profile : LawnProfile)
    (history : List Application) :
    heatStressEvaluate clock emptySummary profile history = none := by
  simp [heatStressEvaluate, emptySummary]

/-- The application-window rule returns no recommendation on the empty summary. -/
theorem applicationWindow_none_on_empty (clock : Clock) (profile : LawnProfile)
    (history : List Application) :
    applicationWindowEvaluate clock emptySummary profile history = none := by
  simp [applicationWindowEvaluate, emptySummary]

/-- The disease-pressure rule returns no recommendation on the empty summary. -/
theorem diseasePressure_none_on_empty (clock : Clock) (profile : LawnProfile)
    (history : List Application) :
    diseasePressureEvaluate clock emptySummary profile history = none := by
  simp [diseasePressureEvaluate, emptySummary]


/-- The pre-emergent rule yields nothing without the 7-day soil average. -/
theorem preEmergent_none_of_no_avg (clock : Clock) (env : EnvironmentalSummary)
    (profile : LawnProfile) (history : List Application)
    (h : env.soil_temp_7day_avg_f = none) :
    preEmergentEvaluate clock env profile history = none := by
  simp [preEmergentEvaluate, h]

/-- The spring-nitrogen rule yields nothing without the 7-day soil
average. -/
theorem springNitrogen_none_of_no_avg (clock : Clock) (env : EnvironmentalSummary)
    (profile : LawnProfile) (history : List Application)
    (h : env.soil_temp_7day_avg_f = none) :
    springNitrogenEvaluate clock env profile history = none := by
  simp [springNitrogenEvaluate, h]

/-- The grub-control rule yields nothing without the 7-day soil average. -/
theorem grubControl_none_of_no_avg (clock : Clock) (env : EnvironmentalSummary)
    (profile : LawnProfile) (history : List Application)
    (h : env.soil_temp_7day_avg_f = none) :
    grubControlEvaluate clock env profile history = none := by
  simp [grubControlEvaluate, h, fromYmdOpt, daysInMonth]

/-- The fall-overseeding rule yields nothing without the 7-day soil
average. -/
theorem fallOverseeding_none_of_no_avg (clock : Clock) (env : EnvironmentalSummary)
    (profile : LawnProfile) (history : List Application)
    (h : env.soil_temp_7day_avg_f = none) :
    fallOverseedingEvaluate clock env profile history = none := by
  simp [fallOverseedingEvaluate, h, fromYmdOpt, daysInMonth]

/-- The fall-fertilization rule yields nothing without the 7-day soil
average. -/
theorem fallFertilization_none_of_no_avg (clock : Clock) (env : EnvironmentalSummary)
    (profile : LawnProfile) (history : List Application)
    (h : env.soil_temp_7day_avg_f = none) :
    fallFertilizationEvaluate clock env profile history = none := by
  simp [fallFertilizationEvaluate, h, fromYmdOpt, daysInMonth]

/-- The pre-emergent rule yields nothing without a current reading. -/
theorem preEmergent_none_of_no_current (clock : Clock) (env : EnvironmentalSummary)
    (profile : LawnProfile) (history : List Application)
    (h : env.current = none) :
    preEmergentEvaluate clock env profile history = none := by
  cases ha : env.soil_temp_7day_avg_f with
  | none => simp [preEmergentEvaluate, ha]
  | some avg => simp [preEmergentEvaluate, ha, h]

/-- The grub-control rule yields nothing without a current reading. -/
theorem grubControl_none_of_no_current (clock : Clock) (env : EnvironmentalSummary)
    (profile : LawnProfile) (history : List Application)
    (h : env.current = none) :
    grubControlEvaluate clock env profile history = none := by
  cases ha : env.soil_temp_7day_avg_f with
  | none => simp [grubControlEvaluate, ha, fromYmdOpt, daysInMonth]
  | some avg => simp [grubControlEvaluate, ha, h, fromYmdOpt, daysInMonth]

/-- The fertilizer stress-block rule yields nothing without a current
reading. -/
theorem fertilizer_none_of_no_current (clock : Clock) (env : EnvironmentalSummary)
    (profile : LawnProfile) (history : List Application)
    (h : env.current = none) :
    fertilizerEvaluate clock env profile history = none := by
  simp [fertilizerEvaluate, h]

/-- The fungicide rule yields nothing without a current reading. -/
theorem fungicide_none_of_no_current (clock : Clock) (env : EnvironmentalSummary)
    (profile : LawnProfile) (history : List Application)
    (h : env.current = none) :
    fungicideEvaluate clock env profile history = none := by
  simp [fungicideEvaluate, h]

/-- The fall-overseeding rule yields nothing without a current reading. -/
theorem fallOverseeding_none_of_no_current (clock : Clock) (env : EnvironmentalSummary)
    (profile : LawnProfile) (history : List Application)
    (h : env.current = none) :
    fallOverseedingEvaluate clock env profile history = none := by
  cases ha : env.soil_temp_7day_avg_f with
  | none => simp [fallOverseedingEvaluate, ha, fromYmdOpt, daysInMonth]
  | some avg => simp [fallOverseedingEvaluate, ha, h, fromYmdOpt, daysInMonth]

/-- The irrigation-forecast rule yields nothing without a current
reading. -/
theorem irrigation_none_of_no_current (clock : Clock) (env : EnvironmentalSummary)
    (profile : LawnProfile) (history : List Application)
    (h : env.current = none) :
    irrigationForecastEvaluate clock env profile history = none := by
  cases hf : env.forecast with
  | none => simp [irrigationForecastEvaluate, hf]
  | some f => simp [irrigationForecastEvaluate, hf, h]

/-- The rain-delay rule yields nothing without a forecast. -/
theorem rainDelay_none_of_no_forecast (clock : Clock) (env : EnvironmentalSummary)
    (profile : LawnProfile) (history : List Application)
    (h : env.forecast = none) :
    rainDelayEvaluate clock env profile history = none := by
  simp [rainDelayEvaluate, h]

/-- The irrigation-forecast rule yields nothing without a forecast. -/
theorem irrigation_none_of_no_forecast (clock : Clock) (env : EnvironmentalSummary)
    (profile : LawnProfile) (history : List Application)
    (h : env.forecast = none) :
    irrigationForecastEvaluate clock env profile history = none := by
  simp [irrigationForecastEvaluate, h]

/-- The heat-stress rule yields nothing without a forecast. -/
theorem heatStress_none_of_no_forecast (clock : Clock) (env : EnvironmentalSummary)
    (profile : LawnProfile) (history : List Application)
    (h : env.forecast = none) :
    heatStressEvaluate clock env profile history = none := by
  simp [heatStressEvaluate, h]

/-- The application-window rule yields nothing without a forecast. -/
theorem applicationWindow_none_of_no_forecast (clock : Clock) (env : EnvironmentalSummary)
    (profile : LawnProfile) (history : List Application)
    (h : env.forecast = none) :
    applicationWindowEvaluate clock env profile history = none := by
  simp [applicationWindowEvaluate, h]

/-- The disease-pressure rule yields nothing without a forecast. -/
theorem diseasePressure_none_of_no_forecast (clock : Clock) (env : EnvironmentalSummary)
    (profile : LawnProfile) (history : List Application)
    (h : env.forecast = none) :
    diseasePressureEvaluate clock env profile history = none := by
  simp [diseasePressureEvaluate, h]

/-- The fungicide rule yields nothing without the 7-day humidity average,
even when the current reading is fully populated. -/
theorem fungicide_none_of_no_humidity_avg (clock : Clock) (env : EnvironmentalSummary)
    (profile : LawnProfile) (history : List Application)
    (h : env.humidity_7day_avg = none) :
    fungicideEvaluate clock env profile history = none := by
  cases hc : env.current with
  | none => simp [fungicideEvaluate, hc]
  | some cur =>
    cases hh : cur.humidity_percent with
    | none => simp [fungicideEvaluate, hc, hh]
    | some hum =>
      cases hamb : cur.ambient_temp_f with
      | none => simp [fungicideEvaluate, hc, hh, hamb]
      | some amb => simp [fungicideEvaluate, hc, hh, hamb, h]

/-- The pre-emergent rule yields nothing when the current reading lacks its
10 cm soil temperature. -/
theorem preEmergent_none_of_no_soil10 (clock : Clock) (env : EnvironmentalSummary)
    (profile : LawnProfile) (history : List Application)
    (cur : EnvironmentalReading) (hc : env.current = some cur)
    (h : cur.soil_temp_10_f = none) :
    preEmergentEvaluate clock env profile history = none := by
  cases ha : env.soil_temp_7day_avg_f with
  | none => simp [preEmergentEvaluate, ha]
  | some avg => simp [preEmergentEvaluate, ha, hc, h]

/-- The grub-control rule yields nothing when the current reading lacks its
10 cm soil temperature. -/
theorem grubControl_none_of_no_soil10 (clock : Clock) (env : EnvironmentalSummary)
    (profile : LawnProfile) (history : List Application)
    (cur : EnvironmentalReading) (hc : env.current = some cur)
    (h : cur.soil_temp_10_f = none) :
    grubControlEvaluate clock env profile history = none := by
  cases ha : env.soil_temp_7day_avg_f with
  | none => simp [grubControlEvaluate, ha, fromYmdOpt, daysInMonth]
  | some avg => simp [grubControlEvaluate, ha, hc, h, fromYmdOpt, daysInMonth]

/-- The fall-overseeding rule yields nothing when the current reading lacks
its 10 cm soil temperature. -/
theorem fallOverseeding_none_of_no_soil10 (clock : Clock) (env : EnvironmentalSummary)
    (profile : LawnProfile) (history : List Application)
    (cur : EnvironmentalReading) (hc : env.current = some cur)
    (h : cur.soil_temp_10_f = none) :
    fallOverseedingEvaluate clock env profile history = none := by
  cases ha : env.soil_temp_7day_avg_f with
  | none => simp [fallOverseedingEvaluate, ha, fromYmdOpt, daysInMonth]
  | some avg => simp [fallOverseedingEvaluate, ha, hc, h, fromYmdOpt, daysInMonth]

/-- The fertilizer stress-block rule yields nothing when the current
reading lacks an ambient temperature. -/
theorem fertilizer_none_of_no_ambient (clock : Clock) (env : EnvironmentalSummary)
    (profile : LawnProfile) (history : List Application)
    (cur : EnvironmentalReading) (hc : env.current = some cur)
    (h : cur.ambient_temp_f = none) :
    fertilizerEvaluate clock env profile history = none := by
  simp [fertilizerEvaluate, hc, h]

/-- The fungicide rule yields nothing when the current reading lacks an
ambient temperature. -/
theorem fungicide_none_of_no_ambient (clock : Clock) (env : EnvironmentalSummary)
    (profile : LawnProfile) (history : List Application)
    (cur : EnvironmentalReading) (hc : env.current = some cur)
    (h : cur.ambient_temp_f = none) :
    fungicideEvaluate clock env profile history = none := by
  cases hh : cur.humidity_percent with
  | none => simp [fungicideEvaluate, hc, hh]
  | some hum => simp [fungicideEvaluate, hc, hh, h]

/-- The fungicide rule yields nothing when the current reading lacks a
humidity value. -/
theorem fungicide_none_of_no_humidity (clock : Clock) (env : EnvironmentalSummary)
    (profile : LawnProfile) (history : List Application)
    (cur : EnvironmentalReading) (hc : env.current = some cur)
    (h : cur.humidity_percent = none) :
    fungicideEvaluate clock env profile history = none := by
  simp [fungicideEvaluate, hc, h]

/-- The irrigation-forecast rule yields nothing when the current reading
resolves no primary soil moisture. -/
theorem irrigation_none_of_no_moisture (clock : Clock) (env : EnvironmentalSummary)
    (profile : LawnProfile) (history : List Application)
    (cur : EnvironmentalReading) (hc : env.current = some cur)
    (h : cur.primary_soil_moisture = none) :
    irrigationForecastEvaluate clock env profile history = none := by
  cases hf : env.forecast with
  | none => simp [irrigationForecastEvaluate, hf]
  | some f => simp [irrigationForecastEvaluate, hf, hc, h]

/-- C9: a rule whose required optional summary data is absent returns no
recommendation instead of failing: for every summary, each rule returns
`none` whenever any one of the optional fields it reads — the 7-day soil
average, the current reading, the forecast, the 7-day humidity average, or a
required channel of the current reading (10 cm soil temperature, ambient
temperature, humidity, primary soil moisture) — is absent; in particular, on
the entirely empty summary every registered rule returns `none` and the
engine's evaluate pass completes with the empty recommendation list. -/
theorem rules_return_none_on_missing_data (clock : Clock)
    (env : EnvironmentalSummary) (profile : LawnProfile)
    (history : List Application) :
    (env.soil_temp_7day_avg_f = none →
      preEmergentEvaluate clock env profile history = none
      ∧ springNitrogenEvaluate clock env profile history = none
      ∧ grubControlEvaluate clock env profile history = none
      ∧ fallOverseedingEvaluate clock env profile history = none
      ∧ fallFertilizationEvaluate clock env profile history = none)
    ∧ (env.current = none →
      preEmergentEvaluate clock env profile history = none
      ∧ grubControlEvaluate clock env profile history = none
      ∧ fertilizerEvaluate clock env profile history = none
      ∧ fungicideEvaluate clock env profile history = none
      ∧ fallOverseedingEvaluate clock env profile history = none
      ∧ irrigationForecastEvaluate clock env profile history = none)
    ∧ (env.forecast = none →
      rainDelayEvaluate clock env profile history = none
      ∧ irrigationForecastEvaluate clock env profile history = none
      ∧ heatStressEvaluate clock env profile history = none
      ∧ applicationWindowEvaluate clock env profile history = none
      ∧ diseasePressureEvaluate clock env profile history = none)
    ∧ (env.humidity_7day_avg = none →
      fungicideEvaluate clock env profile history = none)
    ∧ (∀ cur, env.current = some cur →
      (cur.soil_temp_10_f = none →
        preEmergentEvaluate clock env profile history = none
        ∧ grubControlEvaluate clock env profile history = none
        ∧ fallOverseedingEvaluate clock env profile history = none)
      ∧ (cur.ambient_temp_f = none →
        fertilizerEvaluate clock env profile history = none
        ∧ fungicideEvaluate clock env profile history = none)
      ∧ (cur.humidity_percent = none →
        fungicideEvaluate clock env profile history = none)
      ∧ (cur.primary_soil_moisture = none →
        irrigationForecastEvaluate clock env profile history = none))
    ∧ rulesRegistry.map (fun rule => rule clock emptySummary profile history)
        = List.replicate 12 none
    ∧ engineEvaluate rulesRegistry clock emptySummary profile history = [] := by
  refine ⟨fun h => ⟨?_, ?_, ?_, ?_, ?_⟩, fun h => ⟨?_, ?_, ?_, ?_, ?_, ?_⟩,
    fun h => ⟨?_, ?_, ?_, ?_, ?_⟩, fun h => ?_,
    fun cur hc => ⟨fun h => ⟨?_, ?_, ?_⟩, fun h => ⟨?_, ?_⟩, fun h => ?_, fun h => ?_⟩,
    ?_, ?_⟩
  · exact preEmergent_none_of_no_avg clock env profile history h
  · exact springNitrogen_none_of_no_avg clock env profile history h
  · exact grubControl_none_of_no_avg clock env profile history h
  · exact fallOverseeding_none_of_no_avg clock env profile history h
  · exact fallFertilization_none_of_no_avg clock env profile history h
  · exact preEmergent_none_of_no_current clock env profile history h
  · exact grubControl_none_of_no_current clock env profile history h
  · exact fertilizer_none_of_no_current clock env profile history h
  · exact fungicide_none_of_no_current clock env profile history h
  · exact fallOverseeding_none_of_no_current clock env profile history h
  · exact irrigation_none_of_no_current clock env profile history h
  · exact rainDelay_none_of_no_forecast clock env profile history h
  · exact irrigation_none_of_no_forecast clock env profile history h
  · exact heatStress_none_of_no_forecast clock env profile history h
  · exact applicationWindow_none_of_no_forecast clock env profile history h
  · exact diseasePressure_none_of_no_forecast clock env profile history h
  · exact fungicide_none_of_no_humidity_avg clock env profile history h
  · exact preEmergent_none_of_no_soil10 clock env profile history cur hc h
  · exact grubControl_none_of_no_soil10 clock env profile history cur hc h
  · exact fallOverseeding_none_of_no_soil10 clock env profile history cur hc h
  · exact fertilizer_none_of_no_ambient clock env profile history cur hc h
  · exact fungicide_none_of_no_ambient clock env profile history cur hc h
  · exact fungicide_none_of_no_humidity clock env profile history cur hc h
  · exact irrigation_none_of_no_moisture clock env profile history cur hc h
  · simp only [rulesRegistry, List.map_cons, List.map_nil,
      preEmergent_none_on_empty, springNitrogen_none_on_empty,
      grubControl_none_on_empty, fertilizer_none_on_empty,
      fungicide_none_on_empty, fallOverseeding_none_on_empty,
      fallFertilization_none_on_empty, rainDelay_none_on_empty,
      irrigationForecast_none_on_empty, heatStress_none_on_empty,
      applicationWindow_none_on_empty, diseasePressure_none_on_empty]
    rfl
  · simp only [engineEvaluate, rulesRegistry, List.filterMap_cons,
      preEmergent_none_on_empty, springNitrogen_none_on_empty,
      grubControl_none_on_empty, fertilizer_none_on_empty,
      fungicide_none_on_empty, fallOverseeding_none_on_empty,
      fallFertilization_none_on_empty, rainDelay_none_on_empty,
      irrigationForecast_none_on_empty, heatStress_none_on_empty,
      applicationWindow_none_on_empty, diseasePressure_none_on_empty,
      List.filterMap_nil]

/-- C9 witness: the absence implications applied at concrete partially
absent summaries — missing 7-day average with current and forecast present,
missing current reading, missing forecast, missing 7-day humidity average
with a fully populated current reading, and a present-but-empty current
reading. -/
theorem rules_return_none_on_missing_data_witness :
    preEmergentEvaluate marchClock c9envNoAvg coolProfile [] = none
    ∧ fallFertilizationEvaluate marchClock c9envNoAvg coolProfile [] = none
    ∧ fungicideEvaluate marchClock c8envNoCurrent coolProfile [] = none
    ∧ irrigationForecastEvaluate marchClock c8envNoCurrent coolProfile [] = none
    ∧ rainDelayEvaluate marchClock c8env coolProfile [] = none
    ∧ diseasePressureEvaluate marchClock c8env coolProfile [] = none
    ∧ fungicideEvaluate marchClock c9envNoHumAvg coolProfile [] = none
    ∧ preEmergentEvaluate marchClock c9envBareCurrent coolProfile [] = none
    ∧ fertilizerEvaluate marchClock c9envBareCurrent coolProfile [] = none
    ∧ fungicideEvaluate marchClock c9envBareCurrent coolProfile [] = none
    ∧ irrigationForecastEvaluate marchClock c9envBareCurrent coolProfile [] = none := by
  have hA := (rules_return_none_on_missing_data marchClock c9envNoAvg coolProfile []).1 rfl
  have hB := (rules_return_none_on_missing_data marchClock c8envNoCurrent
    coolProfile []).2.1 rfl
  have hC := (rules_return_none_on_missing_data marchClock c8env coolProfile []).2.2.1 rfl
  have hD := (rules_return_none_on_missing_data marchClock c9envNoHumAvg
    coolProfile []).2.2.2.1 rfl
  have hE := (rules_return_none_on_missing_data marchClock c9envBareCurrent
    coolProfile []).2.2.2.2.1 bareReading rfl
  exact ⟨hA.1, hA.2.2.2.2, hB.2.2.2.1, hB.2.2.2.2.2, hC.1, hC.2.2.2.2,
    hD, (hE.1 rfl).1, (hE.2.1 rfl).1, hE.2.2.1 rfl, hE.2.2.2 rfl⟩

end Turfops

